import Mathlib

/-!
# modern-opengl-minimal-example : `main.cpp`

A shallow embedding of the single translation unit
`src/modern-opengl-minimal-example/main.cpp`.

The program is one linear procedure that talks to GLFW, GLEW and OpenGL.
Those libraries are outside the repository, so every library call is recorded
as an event (`Call`) carrying its arguments and, where the program reads it,
the value the library handed back.  The values handed back come from an
`Env` record: the embedding of `main` is a function of that record.  The
frame loop is unbounded in the source; here it is driven by a stream of polled
inputs and a fuel counter that bounds the number of loop-condition checks.
-/

namespace OpenGLMinimal

/-! ## Scalar types of the OpenGL / GLFW headers -/

abbrev GLuint := Nat
abbrev GLint := Int
abbrev GLsizei := Int
abbrev GLenum := Nat
abbrev GLchar := Char
/-- The float literals of the source are all dyadic, so rationals hold them exactly. -/
abbrev GLfloat := Rat
/-- A `GLFWwindow*`; `0` stands for the null pointer. -/
abbrev WindowPtr := Nat

/-- The null pointer, as an argument value. -/
def nullptr : Nat := 0

/-- Conversion of a `GLint` to a `GLuint` (32-bit wrap-around). -/
def toGLuint (x : GLint) : GLuint := (x % 2 ^ 32).toNat

/-! ## Header constants (values of the GLFW 3, GLEW and OpenGL headers) -/

def GLFW_CONTEXT_VERSION_MAJOR : Int := 0x00022002
def GLFW_CONTEXT_VERSION_MINOR : Int := 0x00022003
def GLFW_OPENGL_PROFILE : Int := 0x00022008
def GLFW_OPENGL_CORE_PROFILE : Int := 0x00032001
def GLFW_RESIZABLE : Int := 0x00020003
def GLFW_SAMPLES : Int := 0x0002100D
def GLFW_KEY_ESCAPE : Int := 256
def GLFW_PRESS : Int := 1
def GLEW_OK : GLenum := 0
def GL_FALSE : Nat := 0
def GL_TRUE : Nat := 1
def GL_MULTISAMPLE : GLenum := 0x809D
def GL_VERTEX_SHADER : GLenum := 0x8B31
def GL_FRAGMENT_SHADER : GLenum := 0x8B30
def GL_COMPILE_STATUS : GLenum := 0x8B81
def GL_ARRAY_BUFFER : GLenum := 0x8892
def GL_STATIC_DRAW : GLenum := 0x88E4
def GL_FLOAT : GLenum := 0x1406
def GL_TRIANGLES : GLenum := 0x0004
def GL_COLOR_BUFFER_BIT : Nat := 0x00004000

/-! ## Constants of the source file -/

def WINDOW_WIDTH : Int := 300
def WINDOW_HEIGHT : Int := 300

/-- The `GLSL330` wrapper: the version line followed by the stringified argument. -/
def GLSL330 (shader : String) : String := "#version 330 core\n" ++ shader

def VertexShaderCode : String :=
  GLSL330 ("in vec3 Position; in vec3 Color; out vec3 ForwaredColor; " ++
    "void main() \x7b ForwaredColor = Color; gl_Position = vec4(Position, 1.0); \x7d")

def FragmentShaderCode : String :=
  GLSL330 ("in vec3 ForwaredColor; out vec4 OutColor; " ++
    "void main() \x7b OutColor = vec4(ForwaredColor, 1.0f); \x7d")

/-! ## The vertex record and its memory layout -/

/-- The record `struct Vertex`: two arrays of three floats. -/
structure Vertex where
  Position : GLfloat × GLfloat × GLfloat
  Color : GLfloat × GLfloat × GLfloat
  deriving DecidableEq

/-- Size and alignment of a C++ object type, in bytes. -/
structure CType where
  size : Nat
  align : Nat
  deriving DecidableEq

/-- A floating-point component type of `f` bytes, aligned to its size. -/
def floatType (f : Nat) : CType := ⟨f, f⟩

/-- The array type `T[n]`. -/
def CType.array (t : CType) (n : Nat) : CType := ⟨n * t.size, t.align⟩

/-- Round `off` up to the next multiple of `a`. -/
def alignUp (off a : Nat) : Nat := (off + a - 1) / a * a

/-- Byte offsets of the members of a standard-layout struct, in declaration
order, laid out from offset `off`. -/
def memberOffsets : Nat → List CType → List Nat
  | _, [] => []
  | off, t :: ts => alignUp off t.align :: memberOffsets (alignUp off t.align + t.size) ts

/-- First byte after the last member. -/
def membersEnd : Nat → List CType → Nat
  | off, [] => off
  | off, t :: ts => membersEnd (alignUp off t.align + t.size) ts

/-- Size of a struct: the end of its members rounded up to the largest member alignment. -/
def structSize (ms : List CType) : Nat :=
  alignUp (membersEnd 0 ms) ((ms.map CType.align).foldl max 1)

/-- Members of `struct Vertex` for a float of `f` bytes:
`GLfloat Position[3]; GLfloat Color[3];`. -/
def vertexMembers (f : Nat) : List CType := [(floatType f).array 3, (floatType f).array 3]

/-- The layout quantities `sizeof(Vertex)`, `offsetof(Vertex, Position)` and
`offsetof(Vertex, Color)` for a float of `f` bytes. -/
def sizeofVertexFor (f : Nat) : Nat := structSize (vertexMembers f)
def offsetofPositionFor (f : Nat) : Nat := (memberOffsets 0 (vertexMembers f)).getD 0 0
def offsetofColorFor (f : Nat) : Nat := (memberOffsets 0 (vertexMembers f)).getD 1 0

/-- The size `sizeof(GLfloat)`: `GLfloat` is the 32-bit float of the OpenGL headers. -/
def sizeofGLfloat : Nat := 4

def sizeofVertex : Nat := sizeofVertexFor sizeofGLfloat
def offsetofPosition : Nat := offsetofPositionFor sizeofGLfloat
def offsetofColor : Nat := offsetofColorFor sizeofGLfloat

/-- The condition of the `static_assert` at the top of `main`. -/
def staticAssertHolds : Bool := sizeofVertex == sizeofGLfloat * 6

/-- The array `TriangleVertices` (aggregate initialisation with brace elision). -/
def TriangleVertices : List Vertex :=
  [ ⟨(-1/2, -1/2, 0), (1, 0, 0)⟩,
    ⟨( 1/2, -1/2, 0), (0, 1, 0)⟩,
    ⟨( 0,    1/2, 0), (0, 0, 1)⟩ ]

/-- The size `sizeof(TriangleVertices)`. -/
def sizeofTriangleVertices : Nat := TriangleVertices.length * sizeofVertex

/-! ## Library calls as events -/

/-- One call of the program into GLFW, GLEW or OpenGL.  A field called `ret`
is the value the library handed back to the program. -/
inductive Call where
  | glfwInit
  | glfwWindowHint (hint value : Int)
  | glfwCreateWindow (width height : Int) (title : String) (monitor share : Nat)
      (ret : WindowPtr)
  | glfwMakeContextCurrent (window : WindowPtr)
  | glfwSwapInterval (interval : Int)
  | glewInit (ret : GLenum)
  | glewGetErrorString (error : GLenum)
  | glViewport (x y : GLint) (width height : GLsizei)
  | glEnable (cap : GLenum)
  | glCreateProgram (ret : GLuint)
  | glCreateShader (shaderType : GLenum) (ret : GLuint)
  | glShaderSource (shader : GLuint) (count : GLsizei) (source : String) (length : Nat)
  | glCompileShader (shader : GLuint)
  | glGetShaderiv (shader : GLuint) (pname : GLenum) (ret : GLint)
  | glGetShaderInfoLog (shader : GLuint) (bufSize : GLsizei) (length : Nat)
      (ret : List GLchar)
  | glAttachShader (program shader : GLuint)
  | glBindFragDataLocation (program colorNumber : GLuint) (name : String)
  | glLinkProgram (program : GLuint)
  | glDeleteShader (shader : GLuint)
  | glGenVertexArrays (n : GLsizei) (ret : GLuint)
  | glGenBuffers (n : GLsizei) (ret : GLuint)
  | glBindVertexArray (array : GLuint)
  | glBindBuffer (target : GLenum) (buffer : GLuint)
  | glBufferData (target : GLenum) (size : Nat) (data : List Vertex) (usage : GLenum)
  | glGetAttribLocation (program : GLuint) (name : String) (ret : GLint)
  | glEnableVertexAttribArray (index : GLuint)
  | glVertexAttribPointer (index : GLuint) (size : GLint) (componentType : GLenum)
      (normalized : Nat) (stride : GLsizei) (pointer : Nat)
  | glfwWindowShouldClose (window : WindowPtr) (ret : Bool)
  | glfwPollEvents
  | glfwGetKey (window : WindowPtr) (key : Int) (ret : Int)
  | glfwSetWindowShouldClose (window : WindowPtr) (value : Nat)
  | glClearColor (red green blue alpha : GLfloat)
  | glClear (mask : Nat)
  | glUseProgram (program : GLuint)
  | glDrawArrays (mode : GLenum) (first : GLint) (count : GLsizei)
  | glfwSwapBuffers (window : WindowPtr)
  | glDeleteProgram (program : GLuint)
  | glDeleteVertexArrays (n : GLsizei) (array : GLuint)
  | glDeleteBuffers (n : GLsizei) (buffer : GLuint)
  | glfwDestroyWindow (window : WindowPtr)
  | glfwTerminate
  deriving DecidableEq

/-- The library function a call goes to, without its arguments. -/
def Call.name : Call → String
  | .glfwInit => "glfwInit"
  | .glfwWindowHint .. => "glfwWindowHint"
  | .glfwCreateWindow .. => "glfwCreateWindow"
  | .glfwMakeContextCurrent .. => "glfwMakeContextCurrent"
  | .glfwSwapInterval .. => "glfwSwapInterval"
  | .glewInit .. => "glewInit"
  | .glewGetErrorString .. => "glewGetErrorString"
  | .glViewport .. => "glViewport"
  | .glEnable .. => "glEnable"
  | .glCreateProgram .. => "glCreateProgram"
  | .glCreateShader .. => "glCreateShader"
  | .glShaderSource .. => "glShaderSource"
  | .glCompileShader .. => "glCompileShader"
  | .glGetShaderiv .. => "glGetShaderiv"
  | .glGetShaderInfoLog .. => "glGetShaderInfoLog"
  | .glAttachShader .. => "glAttachShader"
  | .glBindFragDataLocation .. => "glBindFragDataLocation"
  | .glLinkProgram .. => "glLinkProgram"
  | .glDeleteShader .. => "glDeleteShader"
  | .glGenVertexArrays .. => "glGenVertexArrays"
  | .glGenBuffers .. => "glGenBuffers"
  | .glBindVertexArray .. => "glBindVertexArray"
  | .glBindBuffer .. => "glBindBuffer"
  | .glBufferData .. => "glBufferData"
  | .glGetAttribLocation .. => "glGetAttribLocation"
  | .glEnableVertexAttribArray .. => "glEnableVertexAttribArray"
  | .glVertexAttribPointer .. => "glVertexAttribPointer"
  | .glfwWindowShouldClose .. => "glfwWindowShouldClose"
  | .glfwPollEvents => "glfwPollEvents"
  | .glfwGetKey .. => "glfwGetKey"
  | .glfwSetWindowShouldClose .. => "glfwSetWindowShouldClose"
  | .glClearColor .. => "glClearColor"
  | .glClear .. => "glClear"
  | .glUseProgram .. => "glUseProgram"
  | .glDrawArrays .. => "glDrawArrays"
  | .glfwSwapBuffers .. => "glfwSwapBuffers"
  | .glDeleteProgram .. => "glDeleteProgram"
  | .glDeleteVertexArrays .. => "glDeleteVertexArrays"
  | .glDeleteBuffers .. => "glDeleteBuffers"
  | .glfwDestroyWindow .. => "glfwDestroyWindow"
  | .glfwTerminate => "glfwTerminate"

/-! ## What the libraries hand back -/

/-- What one `glfwPollEvents` / `glfwGetKey` pair of a frame observes. -/
structure Poll where
  /-- The event pump delivered a close request for the window. -/
  closeRequested : Bool
  /-- The value `glfwGetKey(Window, GLFW_KEY_ESCAPE)` returns. -/
  escapeState : Int

/-- Everything the libraries decide during one run. -/
structure Env where
  /-- Result of `glfwCreateWindow` (`0`: creation failed). -/
  Window : WindowPtr
  /-- Whether `glfwMakeContextCurrent` made the context current. -/
  contextCurrent : Bool
  /-- Result of `glewInit`. -/
  GlewError : GLenum
  /-- The text `glewGetErrorString` gives for an error code. -/
  glewErrorString : GLenum → List Char
  /-- Result of `glCreateProgram`. -/
  ShaderProgram : GLuint
  /-- Result of `glCreateShader(GL_VERTEX_SHADER)`. -/
  VertexShader : GLuint
  /-- Compile status and info log of the vertex stage. -/
  vertexStatus : GLint
  vertexInfoLog : List GLchar
  /-- Result of `glCreateShader(GL_FRAGMENT_SHADER)`. -/
  FragmentShader : GLuint
  /-- Compile status and info log of the fragment stage. -/
  fragmentStatus : GLint
  fragmentInfoLog : List GLchar
  /-- Whether `glLinkProgram` linked the program. -/
  linked : Bool
  /-- Names written by `glGenVertexArrays` and `glGenBuffers`. -/
  Vao : GLuint
  Vbo : GLuint
  /-- Results of `glGetAttribLocation` for `"Position"` and `"Color"`. -/
  positionLocation : GLint
  colorLocation : GLint
  /-- What the event pump observes in frame `0, 1, 2, ...`. -/
  polls : Nat → Poll

/-! ## `IsShaderCompiled` -/

def NUL : GLchar := Char.ofNat 0

/-- Contents `glGetShaderInfoLog` writes into a buffer of `bufSize` characters
for a shader whose info log is `log`: as much of the log as fits, then the
terminator (OpenGL: at most `bufSize` characters are written, terminator included). -/
def glGetShaderInfoLog (bufSize : Nat) (log : List GLchar) : List GLchar :=
  match bufSize with
  | 0 => []
  | n + 1 => log.take n ++ [NUL]

/-- Text a stream prints for a `char*`: the characters before the first terminator. -/
def cString (buf : List GLchar) : List Char := buf.takeWhile (fun c => decide (c ≠ NUL))

/-- Outcome of one call of `IsShaderCompiled`. -/
structure ShaderCheck where
  ret : Bool
  trace : List Call
  err : List Char

/-- The function `IsShaderCompiled(Shader)`; `Status` and `log` are what the
driver holds for the shader. -/
def IsShaderCompiled (Shader : GLuint) (Status : GLint) (log : List GLchar) : ShaderCheck :=
  let query := Call.glGetShaderiv Shader GL_COMPILE_STATUS Status
  if Status = 0 then
    let ShaderInfoLog := glGetShaderInfoLog 512 log
    { ret := false
      trace := [query, Call.glGetShaderInfoLog Shader 512 nullptr ShaderInfoLog]
      err := "GLSL compilation error: ".toList ++ cString ShaderInfoLog ++ "\n".toList }
  else
    { ret := true, trace := [query], err := [] }

/-! ## `main` -/

/-- Outcome of a run of `main`. -/
structure Run where
  /-- Library calls in program order. -/
  trace : List Call
  /-- Text written to the error stream. -/
  err : List Char
  /-- Value returned by `main`; `none` when the fuel ran out inside the frame loop. -/
  exit : Option Int
  /-- Number of executed iterations of the frame loop. -/
  frames : Nat

/-- GLFW initialisation up to and including `glewInit` (lines 64-80).  The
assignment `glewExperimental = GL_TRUE` writes a library variable and is not a call. -/
def startupCalls (e : Env) : List Call :=
  [ Call.glfwInit,
    Call.glfwWindowHint GLFW_CONTEXT_VERSION_MAJOR 3,
    Call.glfwWindowHint GLFW_CONTEXT_VERSION_MINOR 3,
    Call.glfwWindowHint GLFW_OPENGL_PROFILE GLFW_OPENGL_CORE_PROFILE,
    Call.glfwWindowHint GLFW_RESIZABLE GL_FALSE,
    Call.glfwWindowHint GLFW_SAMPLES 4,
    Call.glfwCreateWindow WINDOW_WIDTH WINDOW_HEIGHT "OpenGL Hello world!" nullptr nullptr
      e.Window,
    Call.glfwMakeContextCurrent e.Window,
    Call.glfwSwapInterval 1,
    Call.glewInit e.GlewError ]

/-- The failure branch of the `glewInit` check (lines 81-82). -/
def glewFailureCalls (e : Env) : List Call :=
  [Call.glewGetErrorString e.GlewError, Call.glewGetErrorString e.GlewError]

def glewFailureErr (e : Env) : List Char :=
  "Error : ".toList ++ e.glewErrorString e.GlewError ++ "\n".toList ++
  ("Error: ".toList ++ e.glewErrorString e.GlewError ++ "\n".toList)

/-- Lines 86-99: viewport, multisampling, program creation, vertex stage compile. -/
def vertexCompileCalls (e : Env) : List Call :=
  [ Call.glViewport 0 0 WINDOW_WIDTH WINDOW_HEIGHT,
    Call.glEnable GL_MULTISAMPLE,
    Call.glCreateProgram e.ShaderProgram,
    Call.glCreateShader GL_VERTEX_SHADER e.VertexShader,
    Call.glShaderSource e.VertexShader 1 VertexShaderCode nullptr,
    Call.glCompileShader e.VertexShader ]

/-- Lines 104-106: fragment stage compile. -/
def fragmentCompileCalls (e : Env) : List Call :=
  [ Call.glCreateShader GL_FRAGMENT_SHADER e.FragmentShader,
    Call.glShaderSource e.FragmentShader 1 FragmentShaderCode nullptr,
    Call.glCompileShader e.FragmentShader ]

/-- Lines 111-118: attach, bind the output name, link, delete the stage objects. -/
def linkCalls (e : Env) : List Call :=
  [ Call.glAttachShader e.ShaderProgram e.VertexShader,
    Call.glAttachShader e.ShaderProgram e.FragmentShader,
    Call.glBindFragDataLocation e.ShaderProgram 0 "OutColor",
    Call.glLinkProgram e.ShaderProgram,
    Call.glDeleteShader e.VertexShader,
    Call.glDeleteShader e.FragmentShader ]

/-- Lines 134-158: vertex array and buffer creation, upload, attribute layout. -/
def geometryCalls (e : Env) : List Call :=
  let PositionAttr := toGLuint e.positionLocation
  let ColorAttr := toGLuint e.colorLocation
  [ Call.glGenVertexArrays 1 e.Vao,
    Call.glGenBuffers 1 e.Vbo,
    Call.glBindVertexArray e.Vao,
    Call.glBindBuffer GL_ARRAY_BUFFER e.Vbo,
    Call.glBufferData GL_ARRAY_BUFFER sizeofTriangleVertices TriangleVertices GL_STATIC_DRAW,
    Call.glGetAttribLocation e.ShaderProgram "Position" e.positionLocation,
    Call.glEnableVertexAttribArray PositionAttr,
    Call.glVertexAttribPointer PositionAttr 3 GL_FLOAT GL_FALSE sizeofVertex offsetofPosition,
    Call.glGetAttribLocation e.ShaderProgram "Color" e.colorLocation,
    Call.glEnableVertexAttribArray ColorAttr,
    Call.glVertexAttribPointer ColorAttr 3 GL_FLOAT GL_FALSE sizeofVertex offsetofColor,
    Call.glBindBuffer GL_ARRAY_BUFFER 0,
    Call.glBindVertexArray 0 ]

/-- Lines 167-169: pump events, read the escape key, request closing. -/
def pollCalls (e : Env) (p : Poll) : List Call :=
  [Call.glfwPollEvents, Call.glfwGetKey e.Window GLFW_KEY_ESCAPE p.escapeState] ++
  (if p.escapeState = GLFW_PRESS then [Call.glfwSetWindowShouldClose e.Window GL_TRUE] else [])

/-- Lines 172-185: clear, draw the triangle, present. -/
def renderCalls (e : Env) : List Call :=
  [ Call.glClearColor 1 1 1 1,
    Call.glClear GL_COLOR_BUFFER_BIT,
    Call.glUseProgram e.ShaderProgram,
    Call.glBindVertexArray e.Vao,
    Call.glDrawArrays GL_TRIANGLES 0 3,
    Call.glBindVertexArray 0,
    Call.glfwSwapBuffers e.Window ]

/-- The close-requested flag of the window after the event handling of one
frame: the event pump may raise it, and a pressed escape key raises it through
`glfwSetWindowShouldClose(Window, GL_TRUE)`. -/
def flagAfterPoll (p : Poll) (shouldClose : Bool) : Bool :=
  if p.escapeState = GLFW_PRESS then true else (shouldClose || p.closeRequested)

/-- One execution of the body of the frame loop. -/
def frameBody (e : Env) (p : Poll) (shouldClose : Bool) : List Call × Bool :=
  (pollCalls e p ++ renderCalls e, flagAfterPoll p shouldClose)

/-- Outcome of the frame loop. -/
structure LoopRun where
  trace : List Call
  /-- Number of executed iterations. -/
  frames : Nat
  /-- Whether the loop condition was seen false (the loop was left). -/
  finished : Bool

/-- The loop `while (!glfwWindowShouldClose(Window)) { ... }` (lines 165-186):
`fuel` bounds the number of condition checks, `k` is the index of the next
iteration and `shouldClose` the close-requested flag of the window. -/
def frameLoop (e : Env) : Nat → Nat → Bool → LoopRun
  | 0, _, _ => ⟨[], 0, false⟩
  | fuel + 1, k, shouldClose =>
    let check := Call.glfwWindowShouldClose e.Window shouldClose
    if shouldClose then ⟨[check], 0, true⟩
    else
      let body := frameBody e (e.polls k) shouldClose
      let rest := frameLoop e fuel (k + 1) body.2
      ⟨check :: (body.1 ++ rest.trace), rest.frames + 1, rest.finished⟩

/-- Lines 189-195: release the GPU objects, the window and the library. -/
def teardownCalls (e : Env) : List Call :=
  [ Call.glDeleteProgram e.ShaderProgram,
    Call.glDeleteVertexArrays 1 e.Vao,
    Call.glDeleteBuffers 1 e.Vbo,
    Call.glfwDestroyWindow e.Window,
    Call.glfwTerminate ]

/-- The procedure `main(argc, argv)`.  A fresh GLFW window starts with its
close-requested flag cleared. -/
def main (e : Env) (argc : Int) (argv : List String) (fuel : Nat) : Run :=
  let _ := argc
  let _ := argv
  if e.GlewError ≠ GLEW_OK then
    ⟨startupCalls e ++ glewFailureCalls e, glewFailureErr e, some (-1), 0⟩
  else
    let vs := IsShaderCompiled e.VertexShader e.vertexStatus e.vertexInfoLog
    if !vs.ret then
      ⟨startupCalls e ++ vertexCompileCalls e ++ vs.trace, vs.err, some (-1), 0⟩
    else
      let fs := IsShaderCompiled e.FragmentShader e.fragmentStatus e.fragmentInfoLog
      if !fs.ret then
        ⟨startupCalls e ++ vertexCompileCalls e ++ vs.trace ++ fragmentCompileCalls e ++ fs.trace,
          vs.err ++ fs.err, some (-1), 0⟩
      else
        let loop := frameLoop e fuel 0 false
        let setup := startupCalls e ++ vertexCompileCalls e ++ vs.trace ++
          fragmentCompileCalls e ++ fs.trace ++ linkCalls e ++ geometryCalls e
        if loop.finished then
          ⟨setup ++ loop.trace ++ teardownCalls e, vs.err ++ fs.err, some 0, loop.frames⟩
        else
          ⟨setup ++ loop.trace, vs.err ++ fs.err, none, loop.frames⟩

/-! ## Kinds of calls -/

/-- Calls that create or use geometry resources: vertex-array creation, buffer
creation, buffer upload, draw. -/
def Call.isGeometry : Call → Bool
  | .glGenVertexArrays .. => true
  | .glGenBuffers .. => true
  | .glBufferData .. => true
  | .glDrawArrays .. => true
  | _ => false

/-- Calls of the shader build step. -/
def Call.isShaderBuild : Call → Bool
  | .glCreateProgram .. => true
  | .glCreateShader .. => true
  | .glShaderSource .. => true
  | .glCompileShader .. => true
  | .glGetShaderiv .. => true
  | .glGetShaderInfoLog .. => true
  | .glAttachShader .. => true
  | .glBindFragDataLocation .. => true
  | .glLinkProgram .. => true
  | .glDeleteShader .. => true
  | _ => false

/-- Calls that the frame loop issues. -/
def Call.isLoopCall : Call → Bool
  | .glfwWindowShouldClose .. => true
  | .glfwPollEvents => true
  | .glfwGetKey .. => true
  | .glfwSetWindowShouldClose .. => true
  | .glClearColor .. => true
  | .glClear .. => true
  | .glUseProgram .. => true
  | .glBindVertexArray .. => true
  | .glDrawArrays .. => true
  | .glfwSwapBuffers .. => true
  | _ => false

/-- Calls that release the program, the vertex array, the buffer, the window or GLFW. -/
def Call.isRelease : Call → Bool
  | .glDeleteProgram .. => true
  | .glDeleteVertexArrays .. => true
  | .glDeleteBuffers .. => true
  | .glfwDestroyWindow .. => true
  | .glfwTerminate => true
  | _ => false

/-- Calls that create the program, the vertex array, the buffer or the window. -/
def Call.isCreate : Call → Bool
  | .glCreateProgram .. => true
  | .glGenVertexArrays .. => true
  | .glGenBuffers .. => true
  | .glfwCreateWindow .. => true
  | _ => false

def Call.isDraw : Call → Bool
  | .glDrawArrays .. => true
  | _ => false

def Call.isSwap : Call → Bool
  | .glfwSwapBuffers .. => true
  | _ => false

/-- Calls of the event handling of the loop: condition check, event pump, key query,
close request. -/
def Call.isEventCall : Call → Bool
  | .glfwWindowShouldClose .. => true
  | .glfwPollEvents => true
  | .glfwGetKey .. => true
  | .glfwSetWindowShouldClose .. => true
  | _ => false

/-- Commands that only the rendering part of a frame issues. -/
def Call.isFrameCommand : Call → Bool
  | .glClearColor .. => true
  | .glClear .. => true
  | .glUseProgram .. => true
  | .glDrawArrays .. => true
  | .glfwSwapBuffers .. => true
  | _ => false

/-- Calls that upload vertex data or describe a vertex attribute. -/
def Call.isLayoutCall : Call → Bool
  | .glBufferData .. => true
  | .glVertexAttribPointer .. => true
  | _ => false

/-! ## Notions derived from `main` -/

/-- The calls of a run before its frame loop when nothing fails. -/
def setupCalls (e : Env) : List Call :=
  startupCalls e ++ vertexCompileCalls e ++
    [Call.glGetShaderiv e.VertexShader GL_COMPILE_STATUS e.vertexStatus] ++
    fragmentCompileCalls e ++
    [Call.glGetShaderiv e.FragmentShader GL_COMPILE_STATUS e.fragmentStatus] ++
    linkCalls e ++ geometryCalls e

/-- A poll that raises the close-requested flag: a close event or a pressed escape key. -/
def Poll.closes (p : Poll) : Bool := p.closeRequested || decide (p.escapeState = GLFW_PRESS)

/-- The calls of a sequence of frames: the event handling calls of each frame,
each followed by the rendering commands. -/
def framesTrace (e : Env) : List (List Call) → List Call
  | [] => []
  | input :: rest => input ++ renderCalls e ++ framesTrace e rest

/-! ## The frame loop as a state machine -/

/-- The two states of the frame loop. -/
inductive LoopState where
  | Running
  | Closing
  deriving DecidableEq

/-- The state the loop is in for a value of the close-requested flag: the loop
condition `!glfwWindowShouldClose(Window)` holds exactly in `Running`. -/
def loopState (shouldClose : Bool) : LoopState :=
  if shouldClose then LoopState.Closing else LoopState.Running

/-- The close-requested flag after `k` executions of the loop body, starting
from the cleared flag of a fresh window. -/
def flagAt (e : Env) : Nat → Bool
  | 0 => false
  | k + 1 => flagAfterPoll (e.polls k) (flagAt e k)

/-! ## The binding state of the graphics context -/

/-- The part of the context state the program sets through its bind calls,
together with the names handed out at startup. Each bind is taken to be
accepted by the context; the source never inspects the error flag. -/
structure GLState where
  /-- Vertex array bound by the last `glBindVertexArray`. -/
  vertexArray : GLuint
  /-- Buffer bound to `GL_ARRAY_BUFFER` by the last `glBindBuffer`. -/
  arrayBuffer : GLuint
  /-- Program installed by the last `glUseProgram`. -/
  program : GLuint
  /-- Names handed out by `glGenVertexArrays`, `glGenBuffers`, `glCreateProgram`. -/
  createdVao : Option GLuint
  createdVbo : Option GLuint
  createdProgram : Option GLuint

/-- A fresh context: nothing bound, nothing created. -/
def GLState.initial : GLState := ⟨0, 0, 0, none, none, none⟩

/-- Effect of one call on the binding state. -/
def GLState.step (s : GLState) : Call → GLState
  | .glCreateProgram p => { s with createdProgram := some p }
  | .glGenVertexArrays _ a => { s with createdVao := some a }
  | .glGenBuffers _ b => { s with createdVbo := some b }
  | .glBindVertexArray a => { s with vertexArray := a }
  | .glBindBuffer target b => if target = GL_ARRAY_BUFFER then { s with arrayBuffer := b } else s
  | .glUseProgram p => { s with program := p }
  | _ => s

/-- Binding state after a sequence of calls. -/
def GLState.run (s : GLState) (cs : List Call) : GLState := cs.foldl GLState.step s

/-- What the binding state has to be when a call is issued: nothing bound at a
check of the loop condition and at the first call of the teardown; the created
vertex array and buffer bound at the upload and at an attribute description;
the created vertex array bound and the created program in use at a draw. -/
def bindingOk (s : GLState) : Call → Prop
  | .glfwWindowShouldClose .. => s.vertexArray = 0 ∧ s.arrayBuffer = 0
  | .glDeleteProgram .. => s.vertexArray = 0 ∧ s.arrayBuffer = 0
  | .glBufferData .. =>
      s.createdVao = some s.vertexArray ∧ s.createdVbo = some s.arrayBuffer
  | .glVertexAttribPointer .. =>
      s.createdVao = some s.vertexArray ∧ s.createdVbo = some s.arrayBuffer
  | .glDrawArrays .. =>
      s.createdVao = some s.vertexArray ∧ s.createdProgram = some s.program
  | _ => True

/-- Every call of a sequence is issued in a binding state that is right for it. -/
def traceOk : GLState → List Call → Prop
  | _, [] => True
  | s, c :: cs => bindingOk s c ∧ traceOk (s.step c) cs

/-- Between frames: nothing bound, and the startup names are known. -/
def Balanced (e : Env) (s : GLState) : Prop :=
  s.vertexArray = 0 ∧ s.arrayBuffer = 0 ∧ s.createdVao = some e.Vao ∧
  s.createdProgram = some e.ShaderProgram

/-! ## Sample environments -/

/-- A run in which everything succeeds and the escape key is pressed in the third frame. -/
def sampleEnv : Env :=
  { Window := 4096, contextCurrent := true, GlewError := 0,
    glewErrorString := fun _ => "No error".toList,
    ShaderProgram := 1, VertexShader := 2, vertexStatus := 1, vertexInfoLog := [],
    FragmentShader := 3, fragmentStatus := 1, fragmentInfoLog := [], linked := true,
    Vao := 1, Vbo := 1, positionLocation := 0, colorLocation := 1,
    polls := fun k => if k = 2 then ⟨false, 1⟩ else ⟨false, 0⟩ }

/-- As `sampleEnv`, but the vertex stage does not compile. -/
def vertexFailEnv : Env :=
  { sampleEnv with vertexStatus := 0, vertexInfoLog := "0:1(1): error: syntax error".toList }

/-- As `sampleEnv`, but the fragment stage does not compile. -/
def fragmentFailEnv : Env :=
  { sampleEnv with fragmentStatus := 0, fragmentInfoLog := "0:1(1): error: syntax error".toList }

/-- As `sampleEnv`, but the extension loader fails. -/
def glewFailEnv : Env :=
  { sampleEnv with GlewError := 1, glewErrorString := fun _ => "Missing GL version".toList }

/-- The run `sampleEnv` with window creation, context activation and linking failed,
and other handles handed out. -/
def unluckyEnv : Env :=
  { sampleEnv with Window := 0, contextCurrent := false, linked := false,
                   ShaderProgram := 5, Vao := 0, Vbo := 0 }

/-- A compiler message of 512 characters: 511 times `a`, then `b`. -/
def longLog : List GLchar := List.replicate 511 'a' ++ ['b']

/-! ## Lemmas about `IsShaderCompiled` -/

theorem cString_terminated (l rest : List GLchar) (h : ∀ c ∈ l, c ≠ NUL) :
    cString (l ++ NUL :: rest) = l := by
  induction l with
  | nil => simp [cString, List.takeWhile]
  | cons a t ih =>
    have ha : a ≠ NUL := h a (List.mem_cons_self a t)
    have ht : ∀ c ∈ t, c ≠ NUL := fun c hc => h c (List.mem_cons_of_mem a hc)
    have ih2 := ih ht
    simp only [cString] at ih2 ⊢
    simpa [List.takeWhile, ha] using ih2

theorem cString_infoLog (n : Nat) (log : List GLchar) (h : ∀ c ∈ log, c ≠ NUL) :
    cString (glGetShaderInfoLog (n + 1) log) = log.take n := by
  unfold glGetShaderInfoLog
  exact cString_terminated (log.take n) [] (fun c hc => h c (List.mem_of_mem_take hc))

theorem IsShaderCompiled_failed (Shader : GLuint) (log : List GLchar)
    (h : ∀ c ∈ log, c ≠ NUL) :
    (IsShaderCompiled Shader 0 log).err =
      "GLSL compilation error: ".toList ++ log.take 511 ++ "\n".toList := by
  simp [IsShaderCompiled, cString_infoLog 511 log h]

theorem longLog_noNUL : ∀ c ∈ longLog, c ≠ NUL := by
  intro c hc
  simp only [longLog, List.mem_append, List.mem_replicate, List.mem_singleton] at hc
  rcases hc with ⟨_, rfl⟩ | rfl <;> decide

theorem longLog_err :
    (IsShaderCompiled 1 0 longLog).err =
      "GLSL compilation error: ".toList ++ List.replicate 511 'a' ++ "\n".toList := by
  rw [IsShaderCompiled_failed 1 longLog longLog_noNUL]
  have : longLog.take 511 = List.replicate 511 'a' := by
    unfold longLog
    exact List.take_left' (List.length_replicate 511 'a')
  rw [this]

/-! ## Case analysis of `main` -/

theorem IsShaderCompiled_ret (Shader : GLuint) (Status : GLint) (log : List GLchar) :
    (IsShaderCompiled Shader Status log).ret = decide (Status ≠ 0) := by
  unfold IsShaderCompiled
  by_cases h : Status = 0 <;> simp [h]

theorem IsShaderCompiled_ok (Shader : GLuint) (Status : GLint) (log : List GLchar)
    (h : Status ≠ 0) :
    IsShaderCompiled Shader Status log =
      ⟨true, [Call.glGetShaderiv Shader GL_COMPILE_STATUS Status], []⟩ := by
  simp [IsShaderCompiled, h]

theorem IsShaderCompiled_trace_failed (Shader : GLuint) (log : List GLchar) :
    (IsShaderCompiled Shader 0 log).trace =
      [Call.glGetShaderiv Shader GL_COMPILE_STATUS 0,
       Call.glGetShaderInfoLog Shader 512 nullptr (glGetShaderInfoLog 512 log)] := by
  simp [IsShaderCompiled]

theorem main_glewFailed (e : Env) (argc : Int) (argv : List String) (fuel : Nat)
    (h : e.GlewError ≠ GLEW_OK) :
    main e argc argv fuel =
      ⟨startupCalls e ++ glewFailureCalls e, glewFailureErr e, some (-1), 0⟩ := by
  simp [main, h]

theorem main_vertexFailed (e : Env) (argc : Int) (argv : List String) (fuel : Nat)
    (hg : e.GlewError = GLEW_OK) (hv : e.vertexStatus = 0) :
    main e argc argv fuel =
      ⟨startupCalls e ++ vertexCompileCalls e ++
          (IsShaderCompiled e.VertexShader 0 e.vertexInfoLog).trace,
        (IsShaderCompiled e.VertexShader 0 e.vertexInfoLog).err, some (-1), 0⟩ := by
  simp [main, hg, hv, IsShaderCompiled_ret]

theorem main_fragmentFailed (e : Env) (argc : Int) (argv : List String) (fuel : Nat)
    (hg : e.GlewError = GLEW_OK) (hv : e.vertexStatus ≠ 0) (hf : e.fragmentStatus = 0) :
    main e argc argv fuel =
      ⟨startupCalls e ++ vertexCompileCalls e ++
          [Call.glGetShaderiv e.VertexShader GL_COMPILE_STATUS e.vertexStatus] ++
          fragmentCompileCalls e ++
          (IsShaderCompiled e.FragmentShader 0 e.fragmentInfoLog).trace,
        (IsShaderCompiled e.FragmentShader 0 e.fragmentInfoLog).err, some (-1), 0⟩ := by
  simp [main, hg, hf, IsShaderCompiled_ret, IsShaderCompiled_ok _ _ _ hv]

theorem main_ok (e : Env) (argc : Int) (argv : List String) (fuel : Nat)
    (hg : e.GlewError = GLEW_OK) (hv : e.vertexStatus ≠ 0) (hf : e.fragmentStatus ≠ 0) :
    main e argc argv fuel =
      if (frameLoop e fuel 0 false).finished then
        ⟨setupCalls e ++ (frameLoop e fuel 0 false).trace ++ teardownCalls e, [], some 0,
          (frameLoop e fuel 0 false).frames⟩
      else
        ⟨setupCalls e ++ (frameLoop e fuel 0 false).trace, [], none,
          (frameLoop e fuel 0 false).frames⟩ := by
  simp [main, hg, IsShaderCompiled_ret, IsShaderCompiled_ok _ _ _ hv,
    IsShaderCompiled_ok _ _ _ hf, hv, hf, setupCalls]

/-- The four ways a run can go. -/
theorem main_cases (e : Env) :
    e.GlewError ≠ GLEW_OK ∨
    (e.GlewError = GLEW_OK ∧ e.vertexStatus = 0) ∨
    (e.GlewError = GLEW_OK ∧ e.vertexStatus ≠ 0 ∧ e.fragmentStatus = 0) ∨
    (e.GlewError = GLEW_OK ∧ e.vertexStatus ≠ 0 ∧ e.fragmentStatus ≠ 0) := by
  by_cases hg : e.GlewError = GLEW_OK <;> by_cases hv : e.vertexStatus = 0 <;>
    by_cases hf : e.fragmentStatus = 0 <;> simp [hg, hv, hf]

/-! ## The frame loop -/

theorem flagAfterPoll_false (p : Poll) : flagAfterPoll p false = p.closes := by
  unfold flagAfterPoll Poll.closes
  by_cases h : p.escapeState = GLFW_PRESS <;> simp [h]

theorem flagAfterPoll_true (p : Poll) : flagAfterPoll p true = true := by
  unfold flagAfterPoll
  by_cases h : p.escapeState = GLFW_PRESS <;> simp [h]

theorem frameLoop_closing (e : Env) (fuel k : Nat) :
    frameLoop e (fuel + 1) k true = ⟨[Call.glfwWindowShouldClose e.Window true], 0, true⟩ := by
  simp [frameLoop]

theorem frameLoop_running (e : Env) (fuel k : Nat) :
    frameLoop e (fuel + 1) k false =
      ⟨Call.glfwWindowShouldClose e.Window false ::
          (pollCalls e (e.polls k) ++ renderCalls e ++
            (frameLoop e fuel (k + 1) (e.polls k).closes).trace),
        (frameLoop e fuel (k + 1) (e.polls k).closes).frames + 1,
        (frameLoop e fuel (k + 1) (e.polls k).closes).finished⟩ := by
  simp [frameLoop, frameBody, flagAfterPoll_false]

/-- While no poll raises the flag the loop keeps running: `k` iterations are
executed and the loop continues from iteration `k`. -/
theorem frameLoop_frames_of_quiet (e : Env) (k : Nat) :
    ∀ (fuel i : Nat), (∀ j, j < k → (e.polls (i + j)).closes = false) →
      (frameLoop e (fuel + k) i false).frames = k + (frameLoop e fuel (i + k) false).frames ∧
      (frameLoop e (fuel + k) i false).finished = (frameLoop e fuel (i + k) false).finished := by
  induction k with
  | zero => intro fuel i _; simp
  | succ k ih =>
    intro fuel i hq
    have h0 : (e.polls i).closes = false := by simpa using hq 0 (Nat.succ_pos k)
    have hrest : ∀ j, j < k → (e.polls (i + 1 + j)).closes = false := by
      intro j hj
      have := hq (j + 1) (Nat.succ_lt_succ hj)
      rwa [show i + (j + 1) = i + 1 + j by omega] at this
    have := ih fuel (i + 1) hrest
    rw [show fuel + (k + 1) = (fuel + k) + 1 by omega, frameLoop_running, h0]
    simp only
    rw [this.1, this.2, show i + 1 + k = i + (k + 1) by omega]
    exact ⟨by omega, rfl⟩

/-- An iteration whose poll raises the flag is the last one. -/
theorem frameLoop_last (e : Env) (fuel k : Nat) (h : (e.polls k).closes = true) :
    (frameLoop e (fuel + 2) k false).frames = 1 ∧
    (frameLoop e (fuel + 2) k false).finished = true ∧
    (frameLoop e (fuel + 2) k false).trace =
      Call.glfwWindowShouldClose e.Window false ::
        (pollCalls e (e.polls k) ++ renderCalls e ++
          [Call.glfwWindowShouldClose e.Window true]) := by
  rw [frameLoop_running, h, frameLoop_closing]
  simp

/-- The loop is left after exactly `k + 1` iterations when poll `k` is the
first one that raises the flag and the fuel allows `k + 2` condition checks. -/
theorem frameLoop_first_close (e : Env) (fuel k : Nat)
    (hq : ∀ j, j < k → (e.polls j).closes = false) (hk : (e.polls k).closes = true)
    (hfuel : k + 2 ≤ fuel) :
    (frameLoop e fuel 0 false).frames = k + 1 ∧ (frameLoop e fuel 0 false).finished = true := by
  obtain ⟨d, rfl⟩ : ∃ d, fuel = (d + 2) + k := ⟨fuel - (k + 2), by omega⟩
  have hq2 : ∀ j, j < k → (e.polls (0 + j)).closes = false := by
    intro j hj; simpa using hq j hj
  have h1 := frameLoop_frames_of_quiet e k (d + 2) 0 hq2
  have h2 := frameLoop_last e d (0 + k) (by simpa using hk)
  rw [h1.1, h1.2, h2.1, h2.2.1]
  exact ⟨rfl, rfl⟩

/-- The loop is left whenever some poll raises the flag and the fuel reaches it. -/
theorem frameLoop_finishes (e : Env) (j : Nat) :
    ∀ (fuel k : Nat) (flag : Bool), (e.polls (k + j)).closes = true → j + 2 ≤ fuel →
      (frameLoop e fuel k flag).finished = true := by
  induction j with
  | zero =>
    intro fuel k flag h hf
    obtain ⟨d, rfl⟩ : ∃ d, fuel = d + 2 := ⟨fuel - 2, by omega⟩
    cases flag with
    | true => rw [frameLoop_closing]
    | false => exact (frameLoop_last e d k (by simpa using h)).2.1
  | succ j ih =>
    intro fuel k flag h hf
    obtain ⟨d, rfl⟩ : ∃ d, fuel = d + 1 := ⟨fuel - 1, by omega⟩
    cases flag with
    | true => rw [frameLoop_closing]
    | false =>
      rw [frameLoop_running]
      exact ih d (k + 1) _ (by rwa [show k + 1 + j = k + (j + 1) by omega]) (by omega)

/-! ## Lemmas on the kinds of calls -/

theorem pollCalls_isLoopCall (e : Env) (p : Poll) : ∀ c ∈ pollCalls e p, c.isLoopCall = true := by
  intro c hc
  unfold pollCalls at hc
  by_cases h : p.escapeState = GLFW_PRESS <;> simp [h] at hc <;>
    rcases hc with rfl | rfl | rfl <;> rfl

theorem renderCalls_isLoopCall (e : Env) : ∀ c ∈ renderCalls e, c.isLoopCall = true := by
  intro c hc
  simp [renderCalls] at hc
  rcases hc with rfl | rfl | rfl | rfl | rfl | rfl | rfl <;> rfl

theorem frameLoop_isLoopCall (e : Env) :
    ∀ (fuel k : Nat) (flag : Bool), ∀ c ∈ (frameLoop e fuel k flag).trace, c.isLoopCall = true := by
  intro fuel
  induction fuel with
  | zero => intro k flag c hc; simp [frameLoop] at hc
  | succ fuel ih =>
    intro k flag c hc
    cases flag with
    | true =>
      rw [frameLoop_closing] at hc
      simp at hc
      subst hc
      rfl
    | false =>
      rw [frameLoop_running] at hc
      simp only [List.mem_cons, List.mem_append] at hc
      rcases hc with rfl | (h | h) | h
      · rfl
      · exact pollCalls_isLoopCall e _ c h
      · exact renderCalls_isLoopCall e c h
      · exact ih _ _ c h

theorem isLoopCall_not_others (c : Call) (h : c.isLoopCall = true) :
    c.isShaderBuild = false ∧ c.isRelease = false ∧ c.isCreate = false := by
  cases c <;> simp_all [Call.isLoopCall, Call.isShaderBuild, Call.isRelease, Call.isCreate]

theorem main_exit_zero (e : Env) (argc : Int) (argv : List String) (fuel : Nat)
    (h : (main e argc argv fuel).exit = some 0) :
    (e.GlewError = GLEW_OK ∧ e.vertexStatus ≠ 0 ∧ e.fragmentStatus ≠ 0) ∧
    (frameLoop e fuel 0 false).finished = true ∧
    main e argc argv fuel =
      ⟨setupCalls e ++ (frameLoop e fuel 0 false).trace ++ teardownCalls e, [], some 0,
        (frameLoop e fuel 0 false).frames⟩ := by
  rcases main_cases e with hg | ⟨hg, hv⟩ | ⟨hg, hv, hf⟩ | ⟨hg, hv, hf⟩
  · rw [main_glewFailed e argc argv fuel hg] at h
    simp at h
  · rw [main_vertexFailed e argc argv fuel hg hv] at h
    simp at h
  · rw [main_fragmentFailed e argc argv fuel hg hv hf] at h
    simp at h
  · rw [main_ok e argc argv fuel hg hv hf] at h ⊢
    by_cases hfin : (frameLoop e fuel 0 false).finished = true
    · simp [hfin, hg, hv, hf]
    · simp [hfin] at h

/-! ## Lemmas on the state machine -/

theorem flagAt_stays (e : Env) (i : Nat) (h : flagAt e i = true) :
    ∀ j, flagAt e (i + j) = true := by
  intro j
  induction j with
  | zero => exact h
  | succ j ih =>
    rw [show i + (j + 1) = (i + j) + 1 by omega]
    simp only [flagAt]
    rw [ih]
    exact flagAfterPoll_true _

theorem flagAt_quiet (e : Env) (k : Nat) (h : flagAt e k = false) :
    ∀ j, j < k → (e.polls j).closes = false := by
  intro j hj
  have hj0 : flagAt e j = false := by
    by_contra hc
    have ht : flagAt e j = true := by simpa using hc
    have := flagAt_stays e j ht (k - j)
    rw [show j + (k - j) = k by omega, h] at this
    exact Bool.noConfusion this
  have hj1 : flagAt e (j + 1) = false := by
    by_contra hc
    have ht : flagAt e (j + 1) = true := by simpa using hc
    have := flagAt_stays e (j + 1) ht (k - (j + 1))
    rw [show j + 1 + (k - (j + 1)) = k by omega, h] at this
    exact Bool.noConfusion this
  simp only [flagAt] at hj1
  rw [hj0, flagAfterPoll_false] at hj1
  exact hj1

theorem frameLoop_finished_trace (e : Env) :
    ∀ (fuel k : Nat) (flag : Bool), (frameLoop e fuel k flag).finished = true →
      ∃ pre, (frameLoop e fuel k flag).trace =
        pre ++ [Call.glfwWindowShouldClose e.Window true] := by
  intro fuel
  induction fuel with
  | zero => intro k flag h; simp [frameLoop] at h
  | succ fuel ih =>
    intro k flag h
    cases flag with
    | true => exact ⟨[], by rw [frameLoop_closing]; rfl⟩
    | false =>
      rw [frameLoop_running] at h ⊢
      obtain ⟨pre, hpre⟩ := ih (k + 1) _ h
      exact ⟨Call.glfwWindowShouldClose e.Window false ::
        (pollCalls e (e.polls k) ++ renderCalls e ++ pre), by simp [hpre]⟩

/-! ## The frames of a run -/

theorem isEventCall_not_frameCommand (c : Call) (h : c.isEventCall = true) :
    c.isFrameCommand = false ∧ c.isDraw = false ∧ c.isSwap = false := by
  cases c <;> simp_all [Call.isEventCall, Call.isFrameCommand, Call.isDraw, Call.isSwap]

theorem pollCalls_isEventCall (e : Env) (p : Poll) :
    ∀ c ∈ pollCalls e p, c.isEventCall = true := by
  intro c hc
  unfold pollCalls at hc
  by_cases h : p.escapeState = GLFW_PRESS <;> simp [h] at hc <;>
    rcases hc with rfl | rfl | rfl <;> rfl

theorem frameLoop_frames (e : Env) :
    ∀ (fuel k : Nat) (flag : Bool), ∃ inputs tail,
      (frameLoop e fuel k flag).trace = framesTrace e inputs ++ tail ∧
      inputs.length = (frameLoop e fuel k flag).frames ∧
      (∀ input ∈ inputs, ∀ c ∈ input, c.isEventCall = true) ∧
      (∀ c ∈ tail, c.isEventCall = true) := by
  intro fuel
  induction fuel with
  | zero => intro k flag; exact ⟨[], [], by simp [frameLoop, framesTrace]⟩
  | succ fuel ih =>
    intro k flag
    cases flag with
    | true =>
      refine ⟨[], [Call.glfwWindowShouldClose e.Window true], ?_⟩
      rw [frameLoop_closing]
      simp [framesTrace, Call.isEventCall]
    | false =>
      obtain ⟨inputs, tail, h1, h2, h3, h4⟩ := ih (k + 1) (e.polls k).closes
      refine ⟨(Call.glfwWindowShouldClose e.Window false :: pollCalls e (e.polls k)) :: inputs,
        tail, ?_, ?_, ?_, h4⟩
      · rw [frameLoop_running]
        simp [framesTrace, h1]
      · rw [frameLoop_running]
        simp [h2]
      · intro input hin c hc
        rcases List.mem_cons.1 hin with rfl | hin
        · rcases List.mem_cons.1 hc with rfl | hc
          · rfl
          · exact pollCalls_isEventCall e _ c hc
        · exact h3 input hin c hc

theorem countP_framesTrace (e : Env) (inputs : List (List Call))
    (h : ∀ input ∈ inputs, ∀ c ∈ input, c.isEventCall = true) :
    (framesTrace e inputs).countP Call.isDraw = inputs.length ∧
    (framesTrace e inputs).countP Call.isSwap = inputs.length := by
  induction inputs with
  | nil => simp [framesTrace]
  | cons input rest ih =>
    have hrest := ih (fun i hi c hc => h i (List.mem_cons_of_mem _ hi) c hc)
    have hin : input.countP Call.isDraw = 0 ∧ input.countP Call.isSwap = 0 := by
      constructor <;> rw [List.countP_eq_zero] <;> intro c hc
      · simp [(isEventCall_not_frameCommand c (h input (List.mem_cons_self _ _) c hc)).2.1]
      · simp [(isEventCall_not_frameCommand c (h input (List.mem_cons_self _ _) c hc)).2.2]
    simp only [framesTrace, List.countP_append, hrest.1, hrest.2, hin.1, hin.2]
    simp [renderCalls, List.countP_cons, Call.isDraw, Call.isSwap]
    omega

theorem countP_zero_of_isEventCall (l : List Call) (h : ∀ c ∈ l, c.isEventCall = true) :
    l.countP Call.isDraw = 0 ∧ l.countP Call.isSwap = 0 := by
  constructor <;> rw [List.countP_eq_zero] <;> intro c hc
  · simp [(isEventCall_not_frameCommand c (h c hc)).2.1]
  · simp [(isEventCall_not_frameCommand c (h c hc)).2.2]

theorem main_ok_trace (e : Env) (argc : Int) (argv : List String) (fuel : Nat)
    (hg : e.GlewError = GLEW_OK) (hv : e.vertexStatus ≠ 0) (hf : e.fragmentStatus ≠ 0) :
    ∃ post, (post = [] ∨ post = teardownCalls e) ∧
      (main e argc argv fuel).trace = setupCalls e ++ (frameLoop e fuel 0 false).trace ++ post ∧
      (main e argc argv fuel).frames = (frameLoop e fuel 0 false).frames := by
  rw [main_ok e argc argv fuel hg hv hf]
  by_cases hfin : (frameLoop e fuel 0 false).finished = true
  · exact ⟨teardownCalls e, Or.inr rfl, by simp [hfin], by simp [hfin]⟩
  · exact ⟨[], Or.inl rfl, by simp [hfin], by simp [hfin]⟩

theorem setupCalls_facts (e : Env) :
    (∀ c ∈ setupCalls e, c.isFrameCommand = false) ∧
    (setupCalls e).countP Call.isDraw = 0 ∧ (setupCalls e).countP Call.isSwap = 0 := by
  refine ⟨?_, ?_, ?_⟩
  · simp [setupCalls, startupCalls, vertexCompileCalls, fragmentCompileCalls, linkCalls,
      geometryCalls, Call.isFrameCommand]
  · simp [setupCalls, startupCalls, vertexCompileCalls, fragmentCompileCalls, linkCalls,
      geometryCalls, Call.isDraw, List.countP_cons]
  · simp [setupCalls, startupCalls, vertexCompileCalls, fragmentCompileCalls, linkCalls,
      geometryCalls, Call.isSwap, List.countP_cons]

theorem teardownCalls_facts (e : Env) (post : List Call)
    (h : post = [] ∨ post = teardownCalls e) :
    (∀ c ∈ post, c.isFrameCommand = false) ∧
    post.countP Call.isDraw = 0 ∧ post.countP Call.isSwap = 0 := by
  rcases h with rfl | rfl
  · simp
  · simp [teardownCalls, Call.isFrameCommand, Call.isDraw, Call.isSwap, List.countP_cons]

/-! ## The memory layout of `Vertex` -/

theorem alignUp_mul (n f : Nat) : alignUp (n * f) f = n * f := by
  unfold alignUp
  rcases Nat.eq_zero_or_pos f with rfl | hf
  · simp
  · have h1 : n * f + f - 1 = f * n + (f - 1) := by
      rw [Nat.mul_comm n f]
      omega
    rw [h1, Nat.mul_add_div hf, Nat.div_eq_of_lt (by omega)]
    simp

theorem alignUp_zero (f : Nat) : alignUp 0 f = 0 := by
  simpa using alignUp_mul 0 f

theorem vertex_layout (f : Nat) :
    sizeofVertexFor f = 6 * f ∧ offsetofPositionFor f = 0 ∧ offsetofColorFor f = 3 * f := by
  have h3 : alignUp (3 * f) f = 3 * f := alignUp_mul 3 f
  refine ⟨?_, ?_, ?_⟩
  · simp only [sizeofVertexFor, structSize, vertexMembers, membersEnd, CType.array, floatType,
      List.map, List.foldl, alignUp_zero, Nat.zero_add, h3]
    rcases Nat.eq_zero_or_pos f with rfl | hf
    · simp [alignUp]
    · have hm : max (max 1 f) f = f := by omega
      rw [hm, show 3 * f + 3 * f = 6 * f by omega]
      exact alignUp_mul 6 f
  · simp [offsetofPositionFor, vertexMembers, memberOffsets, CType.array, floatType,
      alignUp_zero]
  · simp [offsetofColorFor, vertexMembers, memberOffsets, CType.array, floatType,
      alignUp_zero, h3]

theorem sizeofVertex_eq : sizeofVertex = 24 := (vertex_layout 4).1

theorem offsetofPosition_eq : offsetofPosition = 0 := (vertex_layout 4).2.1

theorem offsetofColor_eq : offsetofColor = 12 := (vertex_layout 4).2.2

theorem sizeofTriangleVertices_eq : sizeofTriangleVertices = 72 := by
  simp [sizeofTriangleVertices, sizeofVertex_eq, TriangleVertices]

theorem isLoopCall_not_layout (c : Call) (h : c.isLoopCall = true) : c.isLayoutCall = false := by
  cases c <;> simp_all [Call.isLoopCall, Call.isLayoutCall]

/-! ## Outcomes the program never looks at -/

theorem pollCalls_names (e1 e2 : Env) (p : Poll) :
    (pollCalls e1 p).map Call.name = (pollCalls e2 p).map Call.name := by
  unfold pollCalls
  by_cases h : p.escapeState = GLFW_PRESS <;> simp [h, Call.name]

theorem frameLoop_names (e1 e2 : Env) (hp : ∀ k, e1.polls k = e2.polls k) :
    ∀ (fuel k : Nat) (flag : Bool),
      (frameLoop e1 fuel k flag).trace.map Call.name =
        (frameLoop e2 fuel k flag).trace.map Call.name ∧
      (frameLoop e1 fuel k flag).frames = (frameLoop e2 fuel k flag).frames ∧
      (frameLoop e1 fuel k flag).finished = (frameLoop e2 fuel k flag).finished := by
  intro fuel
  induction fuel with
  | zero => intro k flag; simp [frameLoop]
  | succ fuel ih =>
    intro k flag
    cases flag with
    | true => simp [frameLoop_closing, Call.name]
    | false =>
      rw [frameLoop_running, frameLoop_running, hp k]
      obtain ⟨h1, h2, h3⟩ := ih (k + 1) (e2.polls k).closes
      refine ⟨?_, by simp [h2], by simp [h3]⟩
      simp only [List.map_cons, List.map_append, h1, pollCalls_names e1 e2]
      simp [renderCalls, Call.name]

theorem frameLoop_congr (e1 e2 : Env) (hw : e1.Window = e2.Window)
    (hs : e1.ShaderProgram = e2.ShaderProgram) (ha : e1.Vao = e2.Vao)
    (hp : e1.polls = e2.polls) :
    ∀ (fuel k : Nat) (flag : Bool), frameLoop e1 fuel k flag = frameLoop e2 fuel k flag := by
  intro fuel
  induction fuel with
  | zero => intro k flag; simp [frameLoop]
  | succ fuel ih =>
    intro k flag
    cases flag with
    | true => simp [frameLoop_closing, hw]
    | false =>
      rw [frameLoop_running, frameLoop_running, ih]
      simp [pollCalls, renderCalls, hw, hs, ha, hp]

theorem name_ne_glGetProgramiv (c : Call) : c.name ≠ "glGetProgramiv" := by
  cases c <;> simp [Call.name]

/-! ## Lemmas on the binding state -/

theorem traceOk_append (s : GLState) (a b : List Call) :
    traceOk s (a ++ b) ↔ traceOk s a ∧ traceOk (s.run a) b := by
  induction a generalizing s with
  | nil => simp [traceOk, GLState.run]
  | cons c cs ih =>
    show (bindingOk s c ∧ traceOk (s.step c) (cs ++ b)) ↔
      ((bindingOk s c ∧ traceOk (s.step c) cs) ∧ traceOk ((s.step c).run cs) b)
    rw [ih]
    exact and_assoc.symm

theorem run_append (s : GLState) (a b : List Call) : s.run (a ++ b) = (s.run a).run b := by
  simp [GLState.run, List.foldl_append]

theorem setupCalls_ok (e : Env) :
    traceOk GLState.initial (setupCalls e) ∧ Balanced e (GLState.initial.run (setupCalls e)) := by
  constructor
  · simp [setupCalls, startupCalls, vertexCompileCalls, fragmentCompileCalls, linkCalls,
      geometryCalls, traceOk, bindingOk, GLState.step, GLState.initial]
  · simp [setupCalls, startupCalls, vertexCompileCalls, fragmentCompileCalls, linkCalls,
      geometryCalls, GLState.run, GLState.step, GLState.initial, Balanced]

theorem frame_ok (e : Env) (p : Poll) (flag : Bool) (s : GLState) (h : Balanced e s) :
    traceOk s (Call.glfwWindowShouldClose e.Window flag :: (pollCalls e p ++ renderCalls e)) ∧
    Balanced e (s.run (Call.glfwWindowShouldClose e.Window flag ::
      (pollCalls e p ++ renderCalls e))) := by
  obtain ⟨h1, h2, h3, h4⟩ := h
  by_cases hesc : p.escapeState = GLFW_PRESS
  · constructor
    · simp [pollCalls, renderCalls, hesc, traceOk, bindingOk, GLState.step, h1, h2, h3, h4]
    · simp [pollCalls, renderCalls, hesc, GLState.run, GLState.step, Balanced, h1, h2, h3, h4]
  · constructor
    · simp [pollCalls, renderCalls, hesc, traceOk, bindingOk, GLState.step, h1, h2, h3, h4]
    · simp [pollCalls, renderCalls, hesc, GLState.run, GLState.step, Balanced, h1, h2, h3, h4]

theorem frameLoop_ok (e : Env) :
    ∀ (fuel k : Nat) (flag : Bool) (s : GLState), Balanced e s →
      traceOk s (frameLoop e fuel k flag).trace ∧
      Balanced e (s.run (frameLoop e fuel k flag).trace) := by
  intro fuel
  induction fuel with
  | zero => intro k flag s h; simpa [frameLoop, traceOk, GLState.run] using h
  | succ fuel ih =>
    intro k flag s h
    cases flag with
    | true =>
      rw [frameLoop_closing]
      obtain ⟨h1, h2, h3, h4⟩ := h
      simp [traceOk, bindingOk, GLState.run, GLState.step, Balanced, h1, h2, h3, h4]
    | false =>
      rw [frameLoop_running]
      have hf := frame_ok e (e.polls k) false s h
      have hr := ih (k + 1) (e.polls k).closes _ hf.2
      have heq : Call.glfwWindowShouldClose e.Window false ::
          (pollCalls e (e.polls k) ++ renderCalls e ++
            (frameLoop e fuel (k + 1) (e.polls k).closes).trace) =
          (Call.glfwWindowShouldClose e.Window false ::
            (pollCalls e (e.polls k) ++ renderCalls e)) ++
            (frameLoop e fuel (k + 1) (e.polls k).closes).trace := by simp
      simp only [heq]
      rw [traceOk_append, run_append]
      exact ⟨⟨hf.1, hr.1⟩, hr.2⟩

theorem teardownCalls_ok (e : Env) (s : GLState) (h : Balanced e s) :
    traceOk s (teardownCalls e) := by
  obtain ⟨h1, h2, _, _⟩ := h
  simp [teardownCalls, traceOk, bindingOk, h1, h2]

/-! ## The sample run -/

theorem sampleEnv_exit : (main sampleEnv 1 ["triangle"] 4).exit = some 0 := by
  have hfin : (frameLoop sampleEnv 4 0 false).finished = true :=
    frameLoop_finishes sampleEnv 2 4 0 false rfl (by decide)
  rw [main_ok sampleEnv 1 ["triangle"] 4 rfl (by decide) (by decide), hfin]
  rfl

/-! ## The claims -/

/-- C3 (as stated, refuted): for the 512-character message `longLog` and a
false compile status, the diagnostic written by `IsShaderCompiled` does not
contain the message: its last character is cut off by the 512-character buffer. -/
theorem C3_counterexample :
    (IsShaderCompiled 1 0 longLog).ret = false ∧
    (∀ c ∈ longLog, c ≠ NUL) ∧
    ¬ (longLog <:+: (IsShaderCompiled 1 0 longLog).err) := by
  refine ⟨by simp [IsShaderCompiled], longLog_noNUL, ?_⟩
  intro hinf
  have hb : 'b' ∈ (IsShaderCompiled 1 0 longLog).err :=
    hinf.subset (by simp only [longLog, List.mem_append, List.mem_singleton, or_true])
  rw [longLog_err] at hb
  simp only [List.mem_append, List.mem_replicate] at hb
  rcases hb with (hb | ⟨_, hb⟩) | hb
  · revert hb; decide
  · revert hb; decide
  · revert hb; decide

/-- C3 (amended): for every shader whose compile status is false (`Status = 0`)
and every compiler log (a C string, so without a NUL inside), `IsShaderCompiled`
returns false, fetches the log through a 512-character buffer, and writes
`"GLSL compilation error: "`, the first 511 characters of the log, and a
line end to the error stream; so the diagnostic contains the first 511
characters of the log, and the whole log when the log has at most 511
characters. -/
theorem C3_IsShaderCompiled_false (Shader : GLuint) (Status : GLint) (log : List GLchar)
    (hs : Status = 0) (hlog : ∀ c ∈ log, c ≠ NUL) :
    (IsShaderCompiled Shader Status log).ret = false ∧
    (IsShaderCompiled Shader Status log).trace =
      [Call.glGetShaderiv Shader GL_COMPILE_STATUS 0,
       Call.glGetShaderInfoLog Shader 512 nullptr (log.take 511 ++ [NUL])] ∧
    (IsShaderCompiled Shader Status log).err =
      "GLSL compilation error: ".toList ++ log.take 511 ++ "\n".toList ∧
    log.take 511 <:+: (IsShaderCompiled Shader Status log).err ∧
    (log.length ≤ 511 → log <:+: (IsShaderCompiled Shader Status log).err) := by
  subst hs
  have herr := IsShaderCompiled_failed Shader log hlog
  refine ⟨by simp [IsShaderCompiled], by simp [IsShaderCompiled, glGetShaderInfoLog], herr, ?_, ?_⟩
  · rw [herr]
    exact ⟨_, _, rfl⟩
  · intro hlen
    rw [herr, List.take_of_length_le hlen]
    exact ⟨_, _, rfl⟩

theorem C3_IsShaderCompiled_false_witness :
    (IsShaderCompiled 7 0 "0:1(1): error".toList).ret = false ∧
    (IsShaderCompiled 7 0 "0:1(1): error".toList).err =
      "GLSL compilation error: 0:1(1): error\n".toList := by
  have h := C3_IsShaderCompiled_false 7 0 "0:1(1): error".toList rfl (by decide)
  refine ⟨h.1, ?_⟩
  rw [h.2.2.1]
  decide

/-- C1: `main` returns `-1` when the extension loader fails or a stage reports a
false compile status (for every fuel, so these runs always return); when the
loader succeeds and both stages compile, `main` returns `0` as soon as the frame
loop is left, which happens once the fuel covers the first poll that asks to
close; and whenever `main` returns, the value is `0` exactly when the loader
succeeded and both compile statuses were true.  The arguments `argc`, `argv`
play no role. -/
theorem C1_exit_status (e : Env) (argc : Int) (argv : List String) (fuel : Nat) :
    ((e.GlewError ≠ GLEW_OK ∨ e.vertexStatus = 0 ∨ e.fragmentStatus = 0) →
      (main e argc argv fuel).exit = some (-1)) ∧
    ((e.GlewError = GLEW_OK ∧ e.vertexStatus ≠ 0 ∧ e.fragmentStatus ≠ 0) →
      ((frameLoop e fuel 0 false).finished = true → (main e argc argv fuel).exit = some 0) ∧
      (∀ k, (e.polls k).closes = true → k + 2 ≤ fuel →
        (main e argc argv fuel).exit = some 0)) ∧
    (∀ code, (main e argc argv fuel).exit = some code →
      (code = 0 ↔ (e.GlewError = GLEW_OK ∧ e.vertexStatus ≠ 0 ∧ e.fragmentStatus ≠ 0)) ∧
      (code = 0 ∨ code = -1)) ∧
    (∀ (argc2 : Int) (argv2 : List String), main e argc2 argv2 fuel = main e argc argv fuel) := by
  have hfail : (e.GlewError ≠ GLEW_OK ∨ e.vertexStatus = 0 ∨ e.fragmentStatus = 0) →
      (main e argc argv fuel).exit = some (-1) := by
    intro h
    rcases main_cases e with hg | ⟨hg, hv⟩ | ⟨hg, hv, hf⟩ | ⟨hg, hv, hf⟩
    · rw [main_glewFailed e argc argv fuel hg]
    · rw [main_vertexFailed e argc argv fuel hg hv]
    · rw [main_fragmentFailed e argc argv fuel hg hv hf]
    · rcases h with h | h | h
      · exact absurd hg h
      · exact absurd h hv
      · exact absurd h hf
  have hok : (e.GlewError = GLEW_OK ∧ e.vertexStatus ≠ 0 ∧ e.fragmentStatus ≠ 0) →
      (frameLoop e fuel 0 false).finished = true → (main e argc argv fuel).exit = some 0 := by
    rintro ⟨hg, hv, hf⟩ hfin
    rw [main_ok e argc argv fuel hg hv hf, hfin]
    simp
  refine ⟨hfail, fun h => ⟨hok h, ?_⟩, ?_, ?_⟩
  · intro k hk hfuel
    exact hok h (frameLoop_finishes e k fuel 0 false (by simpa using hk) hfuel)
  · intro code hcode
    by_cases hall : e.GlewError = GLEW_OK ∧ e.vertexStatus ≠ 0 ∧ e.fragmentStatus ≠ 0
    · obtain ⟨hg, hv, hf⟩ := hall
      rw [main_ok e argc argv fuel hg hv hf] at hcode
      by_cases hfin : (frameLoop e fuel 0 false).finished = true
      · simp [hfin] at hcode
        subst hcode
        simp [hg, hv, hf]
      · simp [hfin] at hcode
    · have hneg : e.GlewError ≠ GLEW_OK ∨ e.vertexStatus = 0 ∨ e.fragmentStatus = 0 := by
        by_contra hc
        push_neg at hc
        exact hall hc
      rw [hfail hneg] at hcode
      have : code = -1 := by
        injection hcode with h1
        exact h1.symm
      subst this
      simp [hall]
  · intro argc2 argv2
    rfl

theorem C1_exit_status_witness :
    (main sampleEnv 1 ["triangle"] 4).exit = some 0 ∧
    (main glewFailEnv 1 ["triangle"] 4).exit = some (-1) ∧
    (main vertexFailEnv 1 ["triangle"] 4).exit = some (-1) ∧
    (main fragmentFailEnv 1 ["triangle"] 4).exit = some (-1) :=
  ⟨((C1_exit_status sampleEnv 1 ["triangle"] 4).2.1
      ⟨rfl, by decide, by decide⟩).2 2 rfl (by decide),
   (C1_exit_status glewFailEnv 1 ["triangle"] 4).1 (Or.inl (by decide)),
   (C1_exit_status vertexFailEnv 1 ["triangle"] 4).1 (Or.inr (Or.inl rfl)),
   (C1_exit_status fragmentFailEnv 1 ["triangle"] 4).1 (Or.inr (Or.inr rfl))⟩

/-- C2: in every run in which the vertex stage or the fragment stage reports a
false compile status, `main` returns the non-zero value `-1`, no frame is
rendered, and the call trace contains no vertex-array creation, no buffer
creation, no buffer upload and no draw call. -/
theorem C2_no_geometry_after_compile_failure (e : Env) (argc : Int) (argv : List String)
    (fuel : Nat) (h : e.vertexStatus = 0 ∨ e.fragmentStatus = 0) :
    (main e argc argv fuel).exit = some (-1) ∧
    (main e argc argv fuel).frames = 0 ∧
    ∀ c ∈ (main e argc argv fuel).trace, c.isGeometry = false := by
  rcases main_cases e with hg | ⟨hg, hv⟩ | ⟨hg, hv, hf⟩ | ⟨hg, hv, hf⟩
  · rw [main_glewFailed e argc argv fuel hg]
    refine ⟨rfl, rfl, ?_⟩
    simp [startupCalls, glewFailureCalls, Call.isGeometry]
  · rw [main_vertexFailed e argc argv fuel hg hv]
    refine ⟨rfl, rfl, ?_⟩
    simp [startupCalls, vertexCompileCalls, IsShaderCompiled_trace_failed, Call.isGeometry]
  · rw [main_fragmentFailed e argc argv fuel hg hv hf]
    refine ⟨rfl, rfl, ?_⟩
    simp [startupCalls, vertexCompileCalls, fragmentCompileCalls,
      IsShaderCompiled_trace_failed, Call.isGeometry]
  · rcases h with h | h
    · exact absurd h hv
    · exact absurd h hf

theorem C2_no_geometry_after_compile_failure_witness :
    (main fragmentFailEnv 1 ["triangle"] 9).exit = some (-1) ∧
    (main fragmentFailEnv 1 ["triangle"] 9).frames = 0 ∧
    ∀ c ∈ (main fragmentFailEnv 1 ["triangle"] 9).trace, c.isGeometry = false :=
  C2_no_geometry_after_compile_failure fragmentFailEnv 1 ["triangle"] 9 (Or.inr rfl)

/-- C4 (as stated, refuted): in the run `vertexFailEnv`, whose vertex stage
reports a false compile status, `main` returns `-1` and its trace nevertheless
contains the creation of the program object, issued before the compile-status
query. -/
theorem C4_counterexample :
    vertexFailEnv.vertexStatus = 0 ∧
    (main vertexFailEnv 1 ["triangle"] 9).exit = some (-1) ∧
    Call.glCreateProgram 1 ∈ (main vertexFailEnv 1 ["triangle"] 9).trace ∧
    ((main vertexFailEnv 1 ["triangle"] 9).trace.map Call.name).indexOf "glCreateProgram" <
      ((main vertexFailEnv 1 ["triangle"] 9).trace.map Call.name).indexOf "glGetShaderiv" := by
  rw [main_vertexFailed vertexFailEnv 1 ["triangle"] 9 rfl rfl]
  refine ⟨rfl, rfl, ?_, ?_⟩
  · simp [startupCalls, vertexCompileCalls, vertexFailEnv, sampleEnv]
  · simp [startupCalls, vertexCompileCalls, IsShaderCompiled_trace_failed, Call.name,
      List.indexOf_cons]

/-- C4 (amended): in every run that passes the extension loading, the program
object is created before either stage is created, compiled or queried,
whatever the compile statuses; and in every run where both stages compile the
shader build step is exactly: create program, create/source/compile/query the
vertex stage, create/source/compile/query the fragment stage, attach vertex
stage, attach fragment stage, bind `"OutColor"` to output slot 0, link, delete
both stage objects, with no other shader-build call before or after. -/
theorem C4_program_created_first (e : Env) (argc : Int) (argv : List String) (fuel : Nat)
    (hg : e.GlewError = GLEW_OK) :
    (∃ rest, (main e argc argv fuel).trace =
      startupCalls e ++
        [ Call.glViewport 0 0 WINDOW_WIDTH WINDOW_HEIGHT,
          Call.glEnable GL_MULTISAMPLE,
          Call.glCreateProgram e.ShaderProgram,
          Call.glCreateShader GL_VERTEX_SHADER e.VertexShader,
          Call.glShaderSource e.VertexShader 1 VertexShaderCode nullptr,
          Call.glCompileShader e.VertexShader,
          Call.glGetShaderiv e.VertexShader GL_COMPILE_STATUS e.vertexStatus ] ++ rest) ∧
    (∀ c ∈ startupCalls e, c.isShaderBuild = false) ∧
    (e.vertexStatus ≠ 0 → e.fragmentStatus ≠ 0 →
      ∃ pre post, (main e argc argv fuel).trace =
        pre ++
        [ Call.glCreateProgram e.ShaderProgram,
          Call.glCreateShader GL_VERTEX_SHADER e.VertexShader,
          Call.glShaderSource e.VertexShader 1 VertexShaderCode nullptr,
          Call.glCompileShader e.VertexShader,
          Call.glGetShaderiv e.VertexShader GL_COMPILE_STATUS e.vertexStatus,
          Call.glCreateShader GL_FRAGMENT_SHADER e.FragmentShader,
          Call.glShaderSource e.FragmentShader 1 FragmentShaderCode nullptr,
          Call.glCompileShader e.FragmentShader,
          Call.glGetShaderiv e.FragmentShader GL_COMPILE_STATUS e.fragmentStatus,
          Call.glAttachShader e.ShaderProgram e.VertexShader,
          Call.glAttachShader e.ShaderProgram e.FragmentShader,
          Call.glBindFragDataLocation e.ShaderProgram 0 "OutColor",
          Call.glLinkProgram e.ShaderProgram,
          Call.glDeleteShader e.VertexShader,
          Call.glDeleteShader e.FragmentShader ] ++ post ∧
        (∀ c ∈ pre, c.isShaderBuild = false) ∧ (∀ c ∈ post, c.isShaderBuild = false)) := by
  refine ⟨?_, ?_, ?_⟩
  · rcases main_cases e with hg2 | ⟨_, hv⟩ | ⟨_, hv, hf⟩ | ⟨_, hv, hf⟩
    · exact absurd hg hg2
    · rw [main_vertexFailed e argc argv fuel hg hv]
      exact ⟨[Call.glGetShaderInfoLog e.VertexShader 512 nullptr
        (glGetShaderInfoLog 512 e.vertexInfoLog)], by
          simp [vertexCompileCalls, IsShaderCompiled_trace_failed, hv]⟩
    · rw [main_fragmentFailed e argc argv fuel hg hv hf]
      exact ⟨fragmentCompileCalls e ++
        (IsShaderCompiled e.FragmentShader 0 e.fragmentInfoLog).trace, by
          simp [vertexCompileCalls]⟩
    · rw [main_ok e argc argv fuel hg hv hf]
      by_cases hfin : (frameLoop e fuel 0 false).finished = true
      · exact ⟨fragmentCompileCalls e ++
          [Call.glGetShaderiv e.FragmentShader GL_COMPILE_STATUS e.fragmentStatus] ++
          linkCalls e ++ geometryCalls e ++ (frameLoop e fuel 0 false).trace ++
          teardownCalls e, by simp [hfin, setupCalls, vertexCompileCalls]⟩
      · exact ⟨fragmentCompileCalls e ++
          [Call.glGetShaderiv e.FragmentShader GL_COMPILE_STATUS e.fragmentStatus] ++
          linkCalls e ++ geometryCalls e ++ (frameLoop e fuel 0 false).trace, by
            simp [hfin, setupCalls, vertexCompileCalls]⟩
  · simp [startupCalls, Call.isShaderBuild]
  · intro hv hf
    have hloop : ∀ c ∈ (frameLoop e fuel 0 false).trace, c.isShaderBuild = false :=
      fun c hc => (isLoopCall_not_others c (frameLoop_isLoopCall e fuel 0 false c hc)).1
    rw [main_ok e argc argv fuel hg hv hf]
    by_cases hfin : (frameLoop e fuel 0 false).finished = true
    · refine ⟨startupCalls e ++ [Call.glViewport 0 0 WINDOW_WIDTH WINDOW_HEIGHT,
          Call.glEnable GL_MULTISAMPLE],
        geometryCalls e ++ (frameLoop e fuel 0 false).trace ++ teardownCalls e, ?_, ?_, ?_⟩
      · simp [hfin, setupCalls, vertexCompileCalls, fragmentCompileCalls, linkCalls]
      · simp [startupCalls, Call.isShaderBuild]
      · intro c hc
        simp only [List.mem_append] at hc
        rcases hc with (hc | hc) | hc
        · revert c; simp [geometryCalls, Call.isShaderBuild]
        · exact hloop c hc
        · revert c; simp [teardownCalls, Call.isShaderBuild]
    · refine ⟨startupCalls e ++ [Call.glViewport 0 0 WINDOW_WIDTH WINDOW_HEIGHT,
          Call.glEnable GL_MULTISAMPLE],
        geometryCalls e ++ (frameLoop e fuel 0 false).trace, ?_, ?_, ?_⟩
      · simp [hfin, setupCalls, vertexCompileCalls, fragmentCompileCalls, linkCalls]
      · simp [startupCalls, Call.isShaderBuild]
      · intro c hc
        simp only [List.mem_append] at hc
        rcases hc with hc | hc
        · revert c; simp [geometryCalls, Call.isShaderBuild]
        · exact hloop c hc

theorem C4_program_created_first_witness :
    ∃ rest, (main vertexFailEnv 1 ["triangle"] 9).trace =
      startupCalls vertexFailEnv ++
        [ Call.glViewport 0 0 WINDOW_WIDTH WINDOW_HEIGHT,
          Call.glEnable GL_MULTISAMPLE,
          Call.glCreateProgram 1,
          Call.glCreateShader GL_VERTEX_SHADER 2,
          Call.glShaderSource 2 1 VertexShaderCode nullptr,
          Call.glCompileShader 2,
          Call.glGetShaderiv 2 GL_COMPILE_STATUS 0 ] ++ rest :=
  (C4_program_created_first vertexFailEnv 1 ["triangle"] 9 rfl).1

/-- C5: in every run that leaves the frame loop (`main` returns `0`), the
trace ends with the releases of the program, the vertex array, the buffer, the
window and GLFW, in this order; no release of any of them occurs earlier, so
each is released exactly once and nothing follows the release of the window but
`glfwTerminate`; and the released handles are those handed out by the only
creation calls of the trace (`glfwCreateWindow`, `glCreateProgram`,
`glGenVertexArrays`, `glGenBuffers`). -/
theorem C5_teardown_order (e : Env) (argc : Int) (argv : List String) (fuel : Nat)
    (h : (main e argc argv fuel).exit = some 0) :
    ∃ pre, (main e argc argv fuel).trace =
        pre ++ [ Call.glDeleteProgram e.ShaderProgram,
                 Call.glDeleteVertexArrays 1 e.Vao,
                 Call.glDeleteBuffers 1 e.Vbo,
                 Call.glfwDestroyWindow e.Window,
                 Call.glfwTerminate ] ∧
      (∀ c ∈ pre, c.isRelease = false) ∧
      pre.filter Call.isCreate =
        [ Call.glfwCreateWindow WINDOW_WIDTH WINDOW_HEIGHT "OpenGL Hello world!"
            nullptr nullptr e.Window,
          Call.glCreateProgram e.ShaderProgram,
          Call.glGenVertexArrays 1 e.Vao,
          Call.glGenBuffers 1 e.Vbo ] := by
  obtain ⟨_, _, hmain⟩ := main_exit_zero e argc argv fuel h
  have hloop := frameLoop_isLoopCall e fuel 0 false
  refine ⟨setupCalls e ++ (frameLoop e fuel 0 false).trace, ?_, ?_, ?_⟩
  · rw [hmain]
    simp [teardownCalls]
  · intro c hc
    rw [List.mem_append] at hc
    rcases hc with hc | hc
    · revert c
      simp [setupCalls, startupCalls, vertexCompileCalls, fragmentCompileCalls, linkCalls,
        geometryCalls, Call.isRelease]
    · exact (isLoopCall_not_others c (hloop c hc)).2.1
  · have hnil : (frameLoop e fuel 0 false).trace.filter Call.isCreate = [] := by
      rw [List.filter_eq_nil_iff]
      intro c hc
      simp [(isLoopCall_not_others c (hloop c hc)).2.2]
    rw [List.filter_append, hnil]
    simp [setupCalls, startupCalls, vertexCompileCalls, fragmentCompileCalls, linkCalls,
      geometryCalls, Call.isCreate, List.filter]

theorem C5_teardown_order_witness :
    ∃ pre, (main sampleEnv 1 ["triangle"] 4).trace =
        pre ++ [ Call.glDeleteProgram 1,
                 Call.glDeleteVertexArrays 1 1,
                 Call.glDeleteBuffers 1 1,
                 Call.glfwDestroyWindow 4096,
                 Call.glfwTerminate ] ∧
      (∀ c ∈ pre, c.isRelease = false) ∧
      pre.filter Call.isCreate =
        [ Call.glfwCreateWindow WINDOW_WIDTH WINDOW_HEIGHT "OpenGL Hello world!"
            nullptr nullptr 4096,
          Call.glCreateProgram 1,
          Call.glGenVertexArrays 1 1,
          Call.glGenBuffers 1 1 ] :=
  C5_teardown_order sampleEnv 1 ["triangle"] 4
    sampleEnv_exit

/-- C6: the frame loop as a state machine over the close-requested flag
(`Running` while the flag is clear, `Closing` once it is set; initially
`Running`).  For every stream of polled inputs: if the loop is `Running` at its
`k`-th condition check and the escape key is seen pressed in iteration `k`, then
that iteration calls `glfwSetWindowShouldClose(Window, GL_TRUE)` and leaves the
flag set, the loop is left at the next condition check (the last call of the
loop is a `glfwWindowShouldClose` answering true) after exactly `k + 1`
iterations, so iteration `k + 1` is not executed; a set flag stays set for
ever, and a loop entered with the flag set executes no iteration. -/
theorem C6_escape_closes_loop (e : Env) (fuel k : Nat)
    (hrun : loopState (flagAt e k) = LoopState.Running)
    (hesc : (e.polls k).escapeState = GLFW_PRESS) (hfuel : k + 2 ≤ fuel) :
    loopState (flagAt e 0) = LoopState.Running ∧
    Call.glfwSetWindowShouldClose e.Window GL_TRUE ∈ (frameBody e (e.polls k) (flagAt e k)).1 ∧
    (frameBody e (e.polls k) (flagAt e k)).2 = true ∧
    loopState (flagAt e (k + 1)) = LoopState.Closing ∧
    (frameLoop e fuel 0 false).finished = true ∧
    (frameLoop e fuel 0 false).frames = k + 1 ∧
    (∃ pre, (frameLoop e fuel 0 false).trace =
      pre ++ [Call.glfwWindowShouldClose e.Window true]) ∧
    (∀ i j, loopState (flagAt e i) = LoopState.Closing →
      loopState (flagAt e (i + j)) = LoopState.Closing) ∧
    (∀ n i, (frameLoop e (n + 1) i true).frames = 0 ∧
      (frameLoop e (n + 1) i true).finished = true) := by
  have hflag : flagAt e k = false := by
    unfold loopState at hrun
    by_cases h : flagAt e k = true
    · simp [h] at hrun
    · simpa using h
  have hcl : (e.polls k).closes = true := by simp [Poll.closes, hesc]
  have hnext : flagAt e (k + 1) = true := by
    simp only [flagAt]
    rw [hflag, flagAfterPoll_false]
    exact hcl
  have hloop := frameLoop_first_close e fuel k (flagAt_quiet e k hflag) hcl hfuel
  refine ⟨rfl, ?_, ?_, ?_, hloop.2, hloop.1, frameLoop_finished_trace e fuel 0 false hloop.2,
    ?_, ?_⟩
  · simp [frameBody, pollCalls, hesc]
  · simp [frameBody, hflag, flagAfterPoll_false, hcl]
  · simp [loopState, hnext]
  · intro i j h
    have hi : flagAt e i = true := by
      unfold loopState at h
      by_cases h2 : flagAt e i = true
      · exact h2
      · simp [h2] at h
    simp [loopState, flagAt_stays e i hi j]
  · intro n i
    rw [frameLoop_closing]
    exact ⟨rfl, rfl⟩

theorem C6_escape_closes_loop_witness :
    (frameLoop sampleEnv 4 0 false).finished = true ∧
    (frameLoop sampleEnv 4 0 false).frames = 3 :=
  ⟨(C6_escape_closes_loop sampleEnv 4 2 (by decide) rfl (by decide)).2.2.2.2.1,
   (C6_escape_closes_loop sampleEnv 4 2 (by decide) rfl (by decide)).2.2.2.2.2.1⟩

/-- C7: every iteration of the frame loop issues the same seven rendering
commands, independent of the iteration and of the polled input: clear colour
(1,1,1,1), clear of the colour buffer, use of the shader program, bind of the
vertex array, `glDrawArrays(GL_TRIANGLES, 0, 3)`, unbind of the vertex array,
buffer swap.  The trace of every run is a part without frame commands, then one
block per executed iteration made of that iteration's event-handling calls
followed by exactly these seven commands, then a part without frame commands;
hence the number of draw calls and the number of swaps both equal the number of
iterations. -/
theorem C7_frames_identical (e : Env) (argc : Int) (argv : List String) (fuel : Nat) :
    renderCalls e =
      [ Call.glClearColor 1 1 1 1,
        Call.glClear GL_COLOR_BUFFER_BIT,
        Call.glUseProgram e.ShaderProgram,
        Call.glBindVertexArray e.Vao,
        Call.glDrawArrays GL_TRIANGLES 0 3,
        Call.glBindVertexArray 0,
        Call.glfwSwapBuffers e.Window ] ∧
    (∀ (p : Poll) (flag : Bool), ∃ input, (frameBody e p flag).1 = input ++ renderCalls e ∧
      ∀ c ∈ input, c.isEventCall = true) ∧
    (∃ pre inputs post,
      (main e argc argv fuel).trace = pre ++ framesTrace e inputs ++ post ∧
      inputs.length = (main e argc argv fuel).frames ∧
      (∀ c ∈ pre, c.isFrameCommand = false) ∧
      (∀ input ∈ inputs, ∀ c ∈ input, c.isEventCall = true) ∧
      (∀ c ∈ post, c.isFrameCommand = false)) ∧
    (main e argc argv fuel).trace.countP Call.isDraw = (main e argc argv fuel).frames ∧
    (main e argc argv fuel).trace.countP Call.isSwap = (main e argc argv fuel).frames := by
  refine ⟨rfl, fun p flag => ⟨pollCalls e p, rfl, pollCalls_isEventCall e p⟩, ?_⟩
  rcases main_cases e with hg | ⟨hg, hv⟩ | ⟨hg, hv, hf⟩ | ⟨hg, hv, hf⟩
  · rw [main_glewFailed e argc argv fuel hg]
    refine ⟨⟨startupCalls e ++ glewFailureCalls e, [], [], by simp [framesTrace], rfl, ?_,
      by simp, by simp⟩, ?_, ?_⟩
    · simp [startupCalls, glewFailureCalls, Call.isFrameCommand]
    · simp [startupCalls, glewFailureCalls, Call.isDraw, List.countP_cons]
    · simp [startupCalls, glewFailureCalls, Call.isSwap, List.countP_cons]
  · rw [main_vertexFailed e argc argv fuel hg hv]
    refine ⟨⟨startupCalls e ++ vertexCompileCalls e ++
        (IsShaderCompiled e.VertexShader 0 e.vertexInfoLog).trace, [], [],
      by simp [framesTrace], rfl, ?_, by simp, by simp⟩, ?_, ?_⟩
    · simp [startupCalls, vertexCompileCalls, IsShaderCompiled_trace_failed,
        Call.isFrameCommand]
    · simp [startupCalls, vertexCompileCalls, IsShaderCompiled_trace_failed, Call.isDraw,
        List.countP_cons]
    · simp [startupCalls, vertexCompileCalls, IsShaderCompiled_trace_failed, Call.isSwap,
        List.countP_cons]
  · rw [main_fragmentFailed e argc argv fuel hg hv hf]
    refine ⟨⟨startupCalls e ++ vertexCompileCalls e ++
        [Call.glGetShaderiv e.VertexShader GL_COMPILE_STATUS e.vertexStatus] ++
        fragmentCompileCalls e ++
        (IsShaderCompiled e.FragmentShader 0 e.fragmentInfoLog).trace, [], [],
      by simp [framesTrace], rfl, ?_, by simp, by simp⟩, ?_, ?_⟩
    · simp [startupCalls, vertexCompileCalls, fragmentCompileCalls,
        IsShaderCompiled_trace_failed, Call.isFrameCommand]
    · simp [startupCalls, vertexCompileCalls, fragmentCompileCalls,
        IsShaderCompiled_trace_failed, Call.isDraw, List.countP_cons]
    · simp [startupCalls, vertexCompileCalls, fragmentCompileCalls,
        IsShaderCompiled_trace_failed, Call.isSwap, List.countP_cons]
  · obtain ⟨post, hpost, htrace, hframes⟩ := main_ok_trace e argc argv fuel hg hv hf
    obtain ⟨inputs, tail, h1, h2, h3, h4⟩ := frameLoop_frames e fuel 0 false
    have hs := setupCalls_facts e
    have ht := teardownCalls_facts e post hpost
    have hc := countP_framesTrace e inputs h3
    have hz := countP_zero_of_isEventCall tail h4
    rw [htrace, hframes, h1]
    refine ⟨⟨setupCalls e, inputs, tail ++ post, by simp, h2, hs.1, h3, ?_⟩, ?_, ?_⟩
    · intro c hc
      rcases List.mem_append.1 hc with hc2 | hc2
      · exact (isEventCall_not_frameCommand c (h4 c hc2)).1
      · exact ht.1 c hc2
    · simp only [List.countP_append, hs.2.1, hc.1, hz.1, ht.2.1, ← h2]
      omega
    · simp only [List.countP_append, hs.2.2, hc.2, hz.2, ht.2.2, ← h2]
      omega

/-- C8: the vertex record is tightly packed and the attribute description
matches it.  For every component size `f` the layout of `struct Vertex` has
size `6 * f` with `Position` at offset `0` and `Color` at offset `3 * f`; with
the 4-byte `GLfloat` this is `sizeof(Vertex) = 24`, the `static_assert` holds,
`Color` is at byte 12, the attribute byte ranges `[0,12)` and `[12,24)` are
disjoint and cover the stride exactly, and `sizeof(TriangleVertices)` is
`3 * sizeof(Vertex) = 72`.  In every run that reaches the geometry setup there
is a single upload, of 72 bytes holding the three vertices, and two attribute
descriptions, each with 3 components of type `GL_FLOAT` and stride 24, at
offsets 0 and 12. -/
theorem C8_vertex_layout (e : Env) (argc : Int) (argv : List String) (fuel : Nat)
    (hg : e.GlewError = GLEW_OK) (hv : e.vertexStatus ≠ 0) (hf : e.fragmentStatus ≠ 0) :
    (∀ f, sizeofVertexFor f = 6 * f ∧ offsetofPositionFor f = 0 ∧
      offsetofColorFor f = 3 * f) ∧
    sizeofVertex = 6 * sizeofGLfloat ∧ sizeofVertex = 24 ∧ staticAssertHolds = true ∧
    offsetofPosition = 0 ∧ offsetofColor = 3 * sizeofGLfloat ∧ offsetofColor = 12 ∧
    (∀ b : Nat, ¬ ((offsetofPosition ≤ b ∧ b < offsetofPosition + 3 * sizeofGLfloat) ∧
      (offsetofColor ≤ b ∧ b < offsetofColor + 3 * sizeofGLfloat))) ∧
    (∀ b : Nat, b < sizeofVertex ↔
      ((offsetofPosition ≤ b ∧ b < offsetofPosition + 3 * sizeofGLfloat) ∨
       (offsetofColor ≤ b ∧ b < offsetofColor + 3 * sizeofGLfloat))) ∧
    TriangleVertices.length = 3 ∧
    sizeofTriangleVertices = 3 * sizeofVertex ∧ sizeofTriangleVertices = 72 ∧
    (main e argc argv fuel).trace.filter Call.isLayoutCall =
      [ Call.glBufferData GL_ARRAY_BUFFER 72 TriangleVertices GL_STATIC_DRAW,
        Call.glVertexAttribPointer (toGLuint e.positionLocation) 3 GL_FLOAT GL_FALSE 24 0,
        Call.glVertexAttribPointer (toGLuint e.colorLocation) 3 GL_FLOAT GL_FALSE 24 12 ] := by
  have hsz := sizeofVertex_eq
  have hp := offsetofPosition_eq
  have hc := offsetofColor_eq
  have ht := sizeofTriangleVertices_eq
  have hfl : sizeofGLfloat = 4 := rfl
  refine ⟨vertex_layout, by omega, hsz, ?_, hp, by omega, hc, ?_, ?_, rfl, by omega, ht, ?_⟩
  · simp [staticAssertHolds, hsz, hfl]
  · intro b
    omega
  · intro b
    omega
  · obtain ⟨post, hpost, htrace, _⟩ := main_ok_trace e argc argv fuel hg hv hf
    have hloop : (frameLoop e fuel 0 false).trace.filter Call.isLayoutCall = [] := by
      rw [List.filter_eq_nil_iff]
      intro c hc
      simp [isLoopCall_not_layout c (frameLoop_isLoopCall e fuel 0 false c hc)]
    have hpost2 : post.filter Call.isLayoutCall = [] := by
      rcases hpost with rfl | rfl
      · rfl
      · simp [teardownCalls, Call.isLayoutCall, List.filter]
    rw [htrace, List.filter_append, List.filter_append, hloop, hpost2]
    simp [setupCalls, startupCalls, vertexCompileCalls, fragmentCompileCalls, linkCalls,
      geometryCalls, Call.isLayoutCall, List.filter, hsz, hp, hc, ht]

theorem C8_vertex_layout_witness :
    sizeofVertex = 24 ∧ offsetofColor = 12 ∧ sizeofTriangleVertices = 72 ∧
    (main sampleEnv 1 ["triangle"] 4).trace.filter Call.isLayoutCall =
      [ Call.glBufferData GL_ARRAY_BUFFER 72 TriangleVertices GL_STATIC_DRAW,
        Call.glVertexAttribPointer (toGLuint 0) 3 GL_FLOAT GL_FALSE 24 0,
        Call.glVertexAttribPointer (toGLuint 1) 3 GL_FLOAT GL_FALSE 24 12 ] :=
  have h := C8_vertex_layout sampleEnv 1 ["triangle"] 4 rfl (by decide) (by decide)
  ⟨h.2.2.1, h.2.2.2.2.2.2.1, h.2.2.2.2.2.2.2.2.2.2.2.1, h.2.2.2.2.2.2.2.2.2.2.2.2⟩

/-- C9: window creation, context activation and program linking are treated as
unconditionally successful.  Two runs that agree on the loader result, on both
compile statuses and on the polled inputs call the same library functions in
the same order, execute the same number of frames and return the same status,
however window creation, context activation and linking went (and whatever
handles were handed out); runs that differ only in the outcome of context
activation and of linking are equal altogether, and no run queries the link
status. -/
theorem C9_unchecked_outcomes (e1 e2 : Env) (argc : Int) (argv : List String) (fuel : Nat)
    (hg : e1.GlewError = e2.GlewError) (hv : e1.vertexStatus = e2.vertexStatus)
    (hf : e1.fragmentStatus = e2.fragmentStatus) (hp : ∀ k, e1.polls k = e2.polls k) :
    (main e1 argc argv fuel).trace.map Call.name =
      (main e2 argc argv fuel).trace.map Call.name ∧
    (main e1 argc argv fuel).exit = (main e2 argc argv fuel).exit ∧
    (main e1 argc argv fuel).frames = (main e2 argc argv fuel).frames ∧
    (∀ (current isLinked : Bool),
      main { e1 with contextCurrent := current, linked := isLinked } argc argv fuel =
        main e1 argc argv fuel) ∧
    (∀ c ∈ (main e1 argc argv fuel).trace, c.name ≠ "glGetProgramiv") := by
  refine ⟨?_, ?_, ?_, ?_, fun c _ => name_ne_glGetProgramiv c⟩
  · rcases main_cases e2 with h2 | ⟨h2, hv2⟩ | ⟨h2, hv2, hf2⟩ | ⟨h2, hv2, hf2⟩
    · rw [main_glewFailed e1 argc argv fuel (hg ▸ h2), main_glewFailed e2 argc argv fuel h2]
      simp [startupCalls, glewFailureCalls, Call.name]
    · rw [main_vertexFailed e1 argc argv fuel (hg ▸ h2) (hv ▸ hv2),
        main_vertexFailed e2 argc argv fuel h2 hv2]
      simp [startupCalls, vertexCompileCalls, IsShaderCompiled_trace_failed, Call.name]
    · rw [main_fragmentFailed e1 argc argv fuel (hg ▸ h2) (hv ▸ hv2) (hf ▸ hf2),
        main_fragmentFailed e2 argc argv fuel h2 hv2 hf2]
      simp [startupCalls, vertexCompileCalls, fragmentCompileCalls,
        IsShaderCompiled_trace_failed, Call.name]
    · obtain ⟨n1, n2, n3⟩ := frameLoop_names e1 e2 hp fuel 0 false
      rw [main_ok e1 argc argv fuel (hg ▸ h2) (hv ▸ hv2) (hf ▸ hf2),
        main_ok e2 argc argv fuel h2 hv2 hf2, n3]
      by_cases hfin : (frameLoop e2 fuel 0 false).finished = true
      · simp [hfin, n1, setupCalls, startupCalls, vertexCompileCalls, fragmentCompileCalls,
          linkCalls, geometryCalls, teardownCalls, Call.name]
      · simp [hfin, n1, setupCalls, startupCalls, vertexCompileCalls, fragmentCompileCalls,
          linkCalls, geometryCalls, Call.name]
  · rcases main_cases e2 with h2 | ⟨h2, hv2⟩ | ⟨h2, hv2, hf2⟩ | ⟨h2, hv2, hf2⟩
    · rw [main_glewFailed e1 argc argv fuel (hg ▸ h2), main_glewFailed e2 argc argv fuel h2]
    · rw [main_vertexFailed e1 argc argv fuel (hg ▸ h2) (hv ▸ hv2),
        main_vertexFailed e2 argc argv fuel h2 hv2]
    · rw [main_fragmentFailed e1 argc argv fuel (hg ▸ h2) (hv ▸ hv2) (hf ▸ hf2),
        main_fragmentFailed e2 argc argv fuel h2 hv2 hf2]
    · obtain ⟨n1, n2, n3⟩ := frameLoop_names e1 e2 hp fuel 0 false
      rw [main_ok e1 argc argv fuel (hg ▸ h2) (hv ▸ hv2) (hf ▸ hf2),
        main_ok e2 argc argv fuel h2 hv2 hf2, n3]
      by_cases hfin : (frameLoop e2 fuel 0 false).finished = true <;> simp [hfin]
  · rcases main_cases e2 with h2 | ⟨h2, hv2⟩ | ⟨h2, hv2, hf2⟩ | ⟨h2, hv2, hf2⟩
    · rw [main_glewFailed e1 argc argv fuel (hg ▸ h2), main_glewFailed e2 argc argv fuel h2]
    · rw [main_vertexFailed e1 argc argv fuel (hg ▸ h2) (hv ▸ hv2),
        main_vertexFailed e2 argc argv fuel h2 hv2]
    · rw [main_fragmentFailed e1 argc argv fuel (hg ▸ h2) (hv ▸ hv2) (hf ▸ hf2),
        main_fragmentFailed e2 argc argv fuel h2 hv2 hf2]
    · obtain ⟨n1, n2, n3⟩ := frameLoop_names e1 e2 hp fuel 0 false
      rw [main_ok e1 argc argv fuel (hg ▸ h2) (hv ▸ hv2) (hf ▸ hf2),
        main_ok e2 argc argv fuel h2 hv2 hf2, n3]
      by_cases hfin : (frameLoop e2 fuel 0 false).finished = true <;> simp [hfin, n2]
  · intro current isLinked
    have hloop := frameLoop_congr
      { e1 with contextCurrent := current, linked := isLinked } e1 rfl rfl rfl rfl fuel 0 false
    unfold main
    rw [hloop]
    rfl

theorem C9_unchecked_outcomes_witness :
    (main sampleEnv 1 ["triangle"] 4).trace.map Call.name =
      (main unluckyEnv 1 ["triangle"] 4).trace.map Call.name ∧
    (main sampleEnv 1 ["triangle"] 4).exit = (main unluckyEnv 1 ["triangle"] 4).exit :=
  have h := C9_unchecked_outcomes sampleEnv unluckyEnv 1 ["triangle"] 4 rfl rfl rfl
    (fun _ => rfl)
  ⟨h.1, h.2.1⟩

/-- C10: binding balance.  Replaying the trace of any run from a fresh context,
at every check of the frame-loop condition and at the first call of the
teardown no vertex array and no array buffer is bound; the buffer upload and
both attribute descriptions are issued while the vertex array and the buffer
created at startup are bound; and every draw call is issued while that vertex
array is bound and the created shader program is the one in use. -/
theorem C10_binding_balance (e : Env) (argc : Int) (argv : List String) (fuel : Nat) :
    traceOk GLState.initial (main e argc argv fuel).trace ∧
    ((main e argc argv fuel).exit = some 0 →
      ∃ pre, (main e argc argv fuel).trace = pre ++ teardownCalls e ∧
        (GLState.initial.run pre).vertexArray = 0 ∧
        (GLState.initial.run pre).arrayBuffer = 0) := by
  constructor
  · rcases main_cases e with hg | ⟨hg, hv⟩ | ⟨hg, hv, hf⟩ | ⟨hg, hv, hf⟩
    · rw [main_glewFailed e argc argv fuel hg]
      simp [startupCalls, glewFailureCalls, traceOk, bindingOk]
    · rw [main_vertexFailed e argc argv fuel hg hv]
      simp [startupCalls, vertexCompileCalls, IsShaderCompiled_trace_failed, traceOk,
        bindingOk]
    · rw [main_fragmentFailed e argc argv fuel hg hv hf]
      simp [startupCalls, vertexCompileCalls, fragmentCompileCalls,
        IsShaderCompiled_trace_failed, traceOk, bindingOk]
    · obtain ⟨post, hpost, htrace, _⟩ := main_ok_trace e argc argv fuel hg hv hf
      have hs := setupCalls_ok e
      have hl := frameLoop_ok e fuel 0 false _ hs.2
      rw [htrace, traceOk_append, traceOk_append, run_append]
      refine ⟨⟨hs.1, hl.1⟩, ?_⟩
      rcases hpost with rfl | rfl
      · simp [traceOk]
      · exact teardownCalls_ok e _ hl.2
  · intro h
    obtain ⟨_, _, hmain⟩ := main_exit_zero e argc argv fuel h
    have hs := setupCalls_ok e
    have hl := frameLoop_ok e fuel 0 false _ hs.2
    refine ⟨setupCalls e ++ (frameLoop e fuel 0 false).trace, by rw [hmain], ?_, ?_⟩
    · rw [run_append]
      exact hl.2.1
    · rw [run_append]
      exact hl.2.2.1

theorem C10_binding_balance_witness :
    traceOk GLState.initial (main sampleEnv 1 ["triangle"] 4).trace ∧
    ∃ pre, (main sampleEnv 1 ["triangle"] 4).trace = pre ++ teardownCalls sampleEnv ∧
      (GLState.initial.run pre).vertexArray = 0 ∧
      (GLState.initial.run pre).arrayBuffer = 0 :=
  ⟨(C10_binding_balance sampleEnv 1 ["triangle"] 4).1,
   (C10_binding_balance sampleEnv 1 ["triangle"] 4).2
     sampleEnv_exit⟩

end OpenGLMinimal
